import Mathlib

/-!
Shallow embedding of the text-processing core of the MP3toTranscribes
repository (modules/action_extractor.py, modules/note_formatter.py,
modules/llm_processor.py, modules/transcription.py, prompts/actions_prompt.py,
prompts/notes_prompt.py), together with theorems settling the frozen claims.

Strings are modelled as Lean `String` (sequences of unicode code points),
which matches Python `str` for indexing, slicing and length.  Python string
primitives (`strip`, `split`, `lower`, `replace`, `in`, `str.format`) are
modelled below on `List Char`.  Unicode caveats (Python `str.lower`,
`str.strip` and `\s` also handle non-ASCII whitespace and case) do not
affect any claim, whose inputs are ASCII.  LLM network calls are modelled by
an explicit oracle argument giving the response text / error of each
successive call, and the embedded pipeline functions additionally return
the list of calls they made (prompt, temperature, max tokens), so that
claims about retry behaviour are statable.  Python exceptions raised by
`str.format` are modelled with `Except`.  Python temperatures (floats
0.2 / 0.3 / 0.8) are modelled as rationals; the float threshold
`len(words) * 0.1` of validate_transcript is modelled as the exact rational
`len(words) / 10`, which agrees with the binary floating-point computation
at every word count a claim touches (10 * 0.1 and 50 * 0.1 are exact
doubles and the margins there are at least 2).

The prompt templates are defined as concatenations of verbatim chunks of
the Python source string literals; facts about the whole templates are
proved compositionally from per-chunk facts, so that no kernel reduction
ever traverses a multi-kilobyte string in one recursion.
-/

set_option maxRecDepth 100000

/-! ## Python string primitives -/

/-- Whitespace characters recognised by Python's `str.strip()` / `str.split()`
(ASCII part; the claims involve no unicode whitespace). -/
def isPySpace (c : Char) : Bool :=
  c = ' ' || c = '\t' || c = '\n' || c = '\x0d' || c = '\x0b' || c = '\x0c'

/-- `str.strip()` on a character list: drop leading and trailing whitespace. -/
def stripWS (l : List Char) : List Char :=
  ((l.dropWhile isPySpace).reverse.dropWhile isPySpace).reverse

/-- `str.strip(chars)`: drop leading and trailing characters from `cs`. -/
def stripChars (cs : List Char) (l : List Char) : List Char :=
  ((l.dropWhile (cs.contains ·)).reverse.dropWhile (cs.contains ·)).reverse

/-- Python `str.strip()` on `String`. -/
def pyStrip (s : String) : String :=
  ⟨stripWS s.data⟩

/-- Python `str.split('\n')`: split at every newline, keeping empty pieces. -/
def splitLinesL : List Char → List (List Char)
  | [] => [[]]
  | c :: rest =>
    if c = '\n' then [] :: splitLinesL rest
    else
      match splitLinesL rest with
      | [] => [[c]]
      | l :: ls => (c :: l) :: ls

/-- Lines of a string, as Python's `s.split('\n')`. -/
def pyLines (s : String) : List (List Char) :=
  splitLinesL s.data

/-- Python whitespace `str.split()` (no argument): split on runs of
whitespace, discarding empty pieces. -/
def pySplitWS : List Char → List (List Char)
  | [] => []
  | c :: rest =>
    if isPySpace c then pySplitWS rest
    else
      match pySplitWS rest with
      | [] => [[c]]
      | l :: ls =>
        match rest with
        | [] => [[c]]
        | c2 :: _ => if isPySpace c2 then [c] :: l :: ls else (c :: l) :: ls

/-- Python `str.lower()` (ASCII case mapping; claims use ASCII only). -/
def lowerL (l : List Char) : List Char :=
  l.map Char.toLower

/-- Python substring containment `pat in s`. -/
def isSubstrL (pat : List Char) : List Char → Bool
  | [] => pat.isEmpty
  | c :: rest => pat.isPrefixOf (c :: rest) || isSubstrL pat rest

/-- Python `pat in s` on `String`. -/
def isSubstr (s pat : String) : Bool :=
  isSubstrL pat.data s.data

/-- Fuel-indexed scanner for Python `str.replace(pat, rep)`: leftmost,
non-overlapping, all occurrences.  Fuel `l.length` suffices since every
step consumes at least one character; on exhausted fuel the remaining
input is returned unchanged. -/
def replaceGo (pat rep : List Char) : Nat → List Char → List Char
  | 0, l => l
  | _ + 1, [] => []
  | fuel + 1, c :: rest =>
    if pat.isPrefixOf (c :: rest) && !pat.isEmpty then
      rep ++ replaceGo pat rep fuel ((c :: rest).drop pat.length)
    else
      c :: replaceGo pat rep fuel rest

/-- Python `s.replace(pat, rep)` on `String`. -/
def pyReplace (s pat rep : String) : String :=
  ⟨replaceGo pat.data rep.data s.data.length s.data⟩

/-! ## Python `str.format` with the single keyword `transcript`

Both prompt templates use the single replacement field `transcript`.
The scanner is a three-state machine over the template characters; the
substituted value is never scanned.  Stray braces raise (here: return
`Except.error`), mirroring Python's `ValueError`/`KeyError`/`IndexError`.
Conversion/format-spec syntax within a field (`!`/`:`) is not modelled and
also maps to `Except.error`; no claim exercises it. -/

inductive FmtSt
  | normal
  | field (acc : List Char)
  | rbrace

/-- Scanner for `tmpl.format(transcript=v)` over the template characters. -/
def fmtGo (v : List Char) : FmtSt → List Char → Except String (List Char)
  | .normal, [] => .ok []
  | .normal, c :: rest =>
    if c = '\x7b' then fmtGo v (.field []) rest
    else if c = '\x7d' then fmtGo v .rbrace rest
    else (fmtGo v .normal rest).map (c :: ·)
  | .field _, [] => .error "Single brace encountered in format string"
  | .field acc, c :: rest =>
    if c = '\x7b' then
      if acc.isEmpty then (fmtGo v .normal rest).map ('\x7b' :: ·)
      else .error "unexpected brace in field name"
    else if c = '\x7d' then
      if acc.reverse = "transcript".data then (fmtGo v .normal rest).map (v ++ ·)
      else .error "KeyError"
    else fmtGo v (.field (c :: acc)) rest
  | .rbrace, [] => .error "Single brace encountered in format string"
  | .rbrace, c :: rest =>
    if c = '\x7d' then (fmtGo v .normal rest).map ('\x7d' :: ·)
    else .error "Single brace encountered in format string"

/-- Python `tmpl.format(transcript=v)` on `String`. -/
def pyFormatTranscript (tmpl v : String) : Except String String :=
  match fmtGo v.data .normal tmpl.data with
  | .ok r => .ok ⟨r⟩
  | .error e => .error e

/-- A chunk of template text containing no brace characters (scanned
verbatim by `str.format`). -/
def braceFreeL (l : List Char) : Bool :=
  l.all (fun c => !(c = '\x7b') && !(c = '\x7d'))

/-! ## prompts/actions_prompt.py

`ACTIONS_PROMPT_TEMPLATE` is the verbatim Python triple-quoted literal,
assembled from chunks so that facts about it can be proved chunk by chunk.
`{transcript}` is its single replacement field. -/

/-- Verbatim chunk of ACTIONS_PROMPT_TEMPLATE (before the placeholder). -/
def actPre1 : String :=
  "\nYou are an expert at extracting and categorizing action items from academic lecture transcripts.\n\nYour task is to identify ALL actionable items mentioned in the lecture, including:\n- Assignments and homework\n- Required readings (textbooks, papers, articles, chapters)\n- Project deadlines and milestones\n- Exam dates and"

/-- Verbatim chunk of ACTIONS_PROMPT_TEMPLATE (before the placeholder). -/
def actPre2 : String :=
  " review sessions\n- Suggested/optional readings\n- Topics to review or study before next class\n- Office hours or professor recommendations\n- Lab work or practical exercises\n- Group work or collaboration tasks\n- Any other tasks or to-dos for students\n\n## Output Format:\n\nFor each action item, provide:\n1. **Category**: One "

/-- Verbatim chunk of ACTIONS_PROMPT_TEMPLATE (before the placeholder). -/
def actPre3 : String :=
  "of [Assignment, Reading (Required), Reading (Suggested), Exam, Deadline, Review Topic, Lab/Practical, Other]\n2. **Description**: Clear, concise description of the task\n3. **Due Date**: Exact date if mentioned, or \"Not specified\"\n4. **Priority**: [High, Medium, Low] based on emphasis and urgency\n5. **Source Context**: B"

/-- Verbatim chunk of ACTIONS_PROMPT_TEMPLATE (before the placeholder). -/
def actPre4 : String :=
  "rief quote or paraphrase from transcript showing where this was mentioned\n\nPresent the output as a structured list using the exact format below:\n\n---\n### Assignments\n- **Description**: [Task description]\n  - **Due Date**: [Date or \"Not specified\"]\n  - **Priority**: [High/Medium/Low]\n  - **Context**: \"[Quote from transc"

/-- Verbatim chunk of ACTIONS_PROMPT_TEMPLATE (before the placeholder). -/
def actPre5 : String :=
  "ript]\"\n\n### Reading (Required)\n- **Description**: [Reading material with author/title if mentioned]\n  - **Due Date**: [Date or \"Not specified\"]\n  - **Priority**: [High/Medium/Low]\n  - **Context**: \"[Quote from transcript]\"\n\n### Reading (Suggested)\n- **Description**: [Optional reading material]\n  - **Due Date**: Not spe"

/-- Verbatim chunk of ACTIONS_PROMPT_TEMPLATE (before the placeholder). -/
def actPre6 : String :=
  "cified\n  - **Priority**: [Low/Medium]\n  - **Context**: \"[Quote from transcript]\"\n\n### Exams\n- **Description**: [Exam details - type, format, coverage]\n  - **Due Date**: [Date]\n  - **Priority**: High\n  - **Context**: \"[Quote from transcript]\"\n\n### Review Topics\n- **Description**: [Topic to review or study]\n  - **Due Dat"

/-- Verbatim chunk of ACTIONS_PROMPT_TEMPLATE (before the placeholder). -/
def actPre7 : String :=
  "e**: [Before next class/exam or \"Not specified\"]\n  - **Priority**: [High/Medium/Low]\n  - **Context**: \"[Quote from transcript]\"\n\n### Lab/Practical\n- **Description**: [Lab assignment or practical exercise]\n  - **Due Date**: [Date or \"Not specified\"]\n  - **Priority**: [High/Medium/Low]\n  - **Context**: \"[Quote from trans"

/-- Verbatim chunk of ACTIONS_PROMPT_TEMPLATE (before the placeholder). -/
def actPre8 : String :=
  "cript]\"\n\n### Deadlines\n- **Description**: [Project milestone or other deadline]\n  - **Due Date**: [Date]\n  - **Priority**: [High/Medium/Low]\n  - **Context**: \"[Quote from transcript]\"\n\n### Other\n- **Description**: [Any other actionable item]\n  - **Due Date**: [Date or \"Not specified\"]\n  - **Priority**: [High/Medium/Low"

/-- Verbatim chunk of ACTIONS_PROMPT_TEMPLATE (before the placeholder). -/
def actPre9 : String :=
  "]\n  - **Context**: \"[Quote from transcript]\"\n\n---\n\n## Priority Assignment Guidelines:\n\n**High Priority:**\n- Exams and major assessments\n- Required assignments with near deadlines\n- Explicitly emphasized items (\"This is really important\", \"Don\x27t forget\")\n- Items with imminent due dates (this week, next class)\n\n**Medium "

/-- Verbatim chunk of ACTIONS_PROMPT_TEMPLATE (before the placeholder). -/
def actPre10 : String :=
  "Priority:**\n- Standard assignments and homework\n- Required readings for upcoming classes\n- Regular lab work\n- Review topics for upcoming exams\n\n**Low Priority:**\n- Suggested/optional readings\n- General review recommendations\n- Future preparation items (weeks away)\n- \"Nice to have\" materials\n\n## Important Guidelines:\n\n-"

/-- Verbatim chunk of ACTIONS_PROMPT_TEMPLATE (before the placeholder). -/
def actPre11 : String :=
  " Extract EVERY actionable item, even if minor or mentioned briefly\n- Infer due dates from context when possible (e.g., \"for next week\" \u2192 calculate date if lecture date is known)\n- Distinguish clearly between \"must read\" and \"might find useful\"\n- If the professor emphasizes something repeatedly, mark as High priority\n- "

/-- Verbatim chunk of ACTIONS_PROMPT_TEMPLATE (before the placeholder). -/
def actPre12 : String :=
  "If an item is mentioned but not explicitly required, categorize as \"Suggested\" or mark with lower priority\n- For review topics, include the specific content to review (chapters, concepts, problems)\n- If NO action items are present, return ONLY: \"No action items identified in this lecture.\"\n- Do NOT invent tasks not men"

/-- Verbatim chunk of ACTIONS_PROMPT_TEMPLATE (before the placeholder). -/
def actPre13 : String :=
  "tioned in the transcript\n- Do NOT include meta-information about the lecture itself (e.g., \"attend next class\")\n- Use exact quotes for context when possible, or close paraphrases\n\n## Due Date Handling:\n\n- If explicit date is mentioned: Use that date\n- If relative date is mentioned (\"next Tuesday\", \"in two weeks\"): Stat"

/-- Verbatim chunk of ACTIONS_PROMPT_TEMPLATE (before the placeholder). -/
def actPre14 : String :=
  "e as given, or note \"[calculate from lecture date]\"\n- If no date is mentioned: Use \"Not specified\"\n- For review topics before exams: Note \"Before [exam name/date]\" if exam was mentioned\n\n---\n\nTRANSCRIPT:\n"

/-- Verbatim chunk of ACTIONS_PROMPT_TEMPLATE (after the placeholder). -/
def actPost1 : String :=
  "\n\n---\n\nExtract and categorize all action items now. If there are no action items, simply state \"No action items identified in this lecture.\" Otherwise, use the exact format above:\n"


/-- The single replacement field appearing in every prompt template. -/
def TRANSCRIPT_PLACEHOLDER : String :=
  "{transcript}"

/-- The full actions prompt template of prompts/actions_prompt.py. -/
def ACTIONS_PROMPT_TEMPLATE : String :=
  actPre1 ++ (actPre2 ++ (actPre3 ++ (actPre4 ++ (actPre5 ++ (actPre6 ++ (actPre7 ++ (actPre8 ++ (actPre9 ++ (actPre10 ++ (actPre11 ++ (actPre12 ++ (actPre13 ++ (actPre14 ++ (TRANSCRIPT_PLACEHOLDER ++ (actPost1)))))))))))))))


/-- `get_actions_prompt(transcript, lecture_date)` of prompts/actions_prompt.py.
The Python function first substitutes the transcript into the template; when
`lecture_date` is truthy it then calls
`prompt.replace("TRANSCRIPT:\n{transcript}", ...)` — on the already
substituted prompt, where the searched literal no longer occurs — and then
calls `.format(transcript=transcript)` a second time on the result (the
local variable `date_context` built beforehand is never used).  Exceptions
of the second `.format` surface as `Except.error`. -/
def get_actions_prompt (transcript : String) (lecture_date : Option String) : Except String String :=
  match pyFormatTranscript ACTIONS_PROMPT_TEMPLATE transcript with
  | .error e => .error e
  | .ok prompt =>
    match lecture_date with
    | none => .ok prompt
    | some d =>
      if d = "" then .ok prompt
      else
        let prompt2 := pyReplace prompt ("TRANSCRIPT:\n" ++ TRANSCRIPT_PLACEHOLDER)
          ("LECTURE DATE: " ++ d ++ "\n\nTRANSCRIPT:\n" ++ TRANSCRIPT_PLACEHOLDER)
        pyFormatTranscript prompt2 transcript

/-- RECOMMENDED_TEMPERATURE of prompts/actions_prompt.py (0.2). -/
def actionsRecommendedTemperature : ℚ := 1/5

/-- RECOMMENDED_MAX_TOKENS of prompts/actions_prompt.py. -/
def actionsRecommendedMaxTokens : Nat := 3072

/-! ## prompts/notes_prompt.py -/

/-- Verbatim chunk of NOTES_PROMPT_TEMPLATE (before the placeholder). -/
def ntGPre1 : String :=
  "\nYou are an expert academic note-taker specialized in creating structured, hierarchical lecture notes from transcripts.\n\nYour task is to analyze the following lecture transcript and produce comprehensive class notes with:\n\n## Requirements:\n\n1. **Main Topics**: Identify 3-7 major themes or subjects covered in the lectur"

/-- Verbatim chunk of NOTES_PROMPT_TEMPLATE (before the placeholder). -/
def ntGPre2 : String :=
  "e\n   - Use ### for main topic headings\n   - Each topic should represent a distinct concept or section\n   - Topics should be ordered logically as presented in the lecture\n\n2. **Subtopics**: Under each main topic, list 2-5 key subtopics\n   - Use #### for subtopic headings\n   - Include explanatory details in bullet points"

/-- Verbatim chunk of NOTES_PROMPT_TEMPLATE (before the placeholder). -/
def ntGPre3 : String :=
  "\n   - Each subtopic should clearly relate to its parent topic\n\n3. **Key Concepts**: Highlight important terms, definitions, theories, or principles\n   - Use **bold** for key terms and definitions\n   - Use *italic* for emphasis or examples\n   - Include brief explanations or context for each concept\n   - Preserve technic"

/-- Verbatim chunk of NOTES_PROMPT_TEMPLATE (before the placeholder). -/
def ntGPre4 : String :=
  "al terminology exactly as stated\n\n4. **Hierarchical Organization**:\n   - Main topics at the top level (###)\n   - Subtopics nested under main topics (####)\n   - Supporting details as bullet points under subtopics\n   - Use proper indentation for clarity\n   - Maintain logical flow from general to specific\n\n5. **Academic C"

/-- Verbatim chunk of NOTES_PROMPT_TEMPLATE (before the placeholder). -/
def ntGPre5 : String :=
  "larity**:\n   - Use formal, academic language\n   - Preserve technical terminology and jargon\n   - Include examples or case studies mentioned by the lecturer\n   - Note any formulas, equations, or diagrams described\n   - Include relevant dates, names, and references mentioned\n\n## Output Format Example:\n\n### [Main Topic 1]"

/-- Verbatim chunk of NOTES_PROMPT_TEMPLATE (before the placeholder). -/
def ntGPre6 : String :=
  "\n\n#### [Subtopic 1.1]\n- Key point or detail\n- Another important point\n  - Supporting detail (if applicable)\n- **Key Concept**: Definition or explanation\n- *Example*: Concrete illustration\n\n#### [Subtopic 1.2]\n- Key point with context\n- *Note*: Additional clarification\n\n### [Main Topic 2]\n\n#### [Subtopic 2.1]\n- Importan"

/-- Verbatim chunk of NOTES_PROMPT_TEMPLATE (before the placeholder). -/
def ntGPre7 : String :=
  "t information\n- **Term**: Definition\n\n...and so on for all main topics\n\n## Important Guidelines:\n\n- Do NOT include greetings, administrative announcements, or off-topic discussions\n- Do NOT invent information not present in the transcript\n- If the lecturer mentions uncertainty (\"I think\", \"possibly\", \"maybe\"), preserve"

/-- Verbatim chunk of NOTES_PROMPT_TEMPLATE (before the placeholder). -/
def ntGPre8 : String :=
  " that uncertainty in the notes\n- Preserve the logical flow and sequence of the lecture\n- If the transcript is unclear or fragmented, infer the most likely meaning but flag ambiguity with [unclear] or [audio unclear]\n- If a concept is mentioned multiple times, consolidate it under the most relevant section\n- Do NOT use "

/-- Verbatim chunk of NOTES_PROMPT_TEMPLATE (before the placeholder). -/
def ntGPre9 : String :=
  "markdown code blocks (```) - use regular markdown formatting only\n- Maintain consistency in formatting throughout the notes\n\n---\n\nTRANSCRIPT:\n"

/-- Verbatim chunk of NOTES_PROMPT_TEMPLATE (after the placeholder). -/
def ntGPost1 : String :=
  "\n\n---\n\nGenerate the structured class notes now. Begin with the first main topic (###) immediately - do not include any preamble or meta-commentary:\n"

/-- Verbatim chunk of NOTES_PROMPT_STEM_TEMPLATE (before the placeholder). -/
def ntSPre1 : String :=
  "\nYou are an expert note-taker for STEM (Science, Technology, Engineering, Mathematics) lectures.\n\nYour task is to create structured notes from the following lecture transcript with special attention to:\n\n## STEM-Specific Requirements:\n\n1. **Mathematical Content**:\n   - Preserve equations and formulas exactly as describ"

/-- Verbatim chunk of NOTES_PROMPT_STEM_TEMPLATE (before the placeholder). -/
def ntSPre2 : String :=
  "ed\n   - Use proper mathematical notation where possible\n   - Include step-by-step derivations when presented\n\n2. **Technical Accuracy**:\n   - Maintain precise technical terminology\n   - Include variable definitions and units\n   - Note assumptions and constraints\n\n3. **Problem-Solving Approaches**:\n   - Document methods"

/-- Verbatim chunk of NOTES_PROMPT_STEM_TEMPLATE (before the placeholder). -/
def ntSPre3 : String :=
  " and algorithms clearly\n   - Include example problems with solutions\n   - Note common pitfalls or mistakes mentioned\n\n4. **Diagrams and Visualizations**:\n   - Describe any diagrams, charts, or visual aids mentioned\n   - Note spatial relationships and connections\n   - Include labels and annotations described\n\n## Standar"

/-- Verbatim chunk of NOTES_PROMPT_STEM_TEMPLATE (before the placeholder). -/
def ntSPre4 : String :=
  "d Requirements:\n\n[Same as general template...]\n\n---\n\nTRANSCRIPT:\n"

/-- Verbatim chunk of NOTES_PROMPT_STEM_TEMPLATE (after the placeholder). -/
def ntSPost1 : String :=
  "\n\n---\n\nGenerate the structured STEM lecture notes now:\n"

/-- Verbatim chunk of NOTES_PROMPT_HUMANITIES_TEMPLATE (before the placeholder). -/
def ntHPre1 : String :=
  "\nYou are an expert note-taker for humanities lectures (History, Literature, Philosophy, etc.).\n\nYour task is to create structured notes from the following lecture transcript with special attention to:\n\n## Humanities-Specific Requirements:\n\n1. **Historical Context**:\n   - Include dates, periods, and timelines\n   - Note "

/-- Verbatim chunk of NOTES_PROMPT_HUMANITIES_TEMPLATE (before the placeholder). -/
def ntHPre2 : String :=
  "historical figures and their roles\n   - Preserve chronological relationships\n\n2. **Textual Analysis**:\n   - Include quotations and their sources\n   - Note interpretations and multiple perspectives\n   - Preserve critical analysis and arguments\n\n3. **Thematic Connections**:\n   - Identify recurring themes and motifs\n   - "

/-- Verbatim chunk of NOTES_PROMPT_HUMANITIES_TEMPLATE (before the placeholder). -/
def ntHPre3 : String :=
  "Note comparisons and contrasts\n   - Include cultural and social context\n\n4. **Argumentation Structure**:\n   - Capture thesis statements and main arguments\n   - Note supporting evidence and counterarguments\n   - Include scholarly debates mentioned\n\n## Standard Requirements:\n\n[Same as general template...]\n\n---\n\nTRANSCRIP"

/-- Verbatim chunk of NOTES_PROMPT_HUMANITIES_TEMPLATE (before the placeholder). -/
def ntHPre4 : String :=
  "T:\n"

/-- Verbatim chunk of NOTES_PROMPT_HUMANITIES_TEMPLATE (after the placeholder). -/
def ntHPost1 : String :=
  "\n\n---\n\nGenerate the structured humanities lecture notes now:\n"

/-- The general notes prompt template of prompts/notes_prompt.py. -/
def NOTES_PROMPT_TEMPLATE : String :=
  ntGPre1 ++ (ntGPre2 ++ (ntGPre3 ++ (ntGPre4 ++ (ntGPre5 ++ (ntGPre6 ++ (ntGPre7 ++ (ntGPre8 ++ (ntGPre9 ++ (TRANSCRIPT_PLACEHOLDER ++ (ntGPost1))))))))))

/-- The STEM notes prompt template of prompts/notes_prompt.py. -/
def NOTES_PROMPT_STEM_TEMPLATE : String :=
  ntSPre1 ++ (ntSPre2 ++ (ntSPre3 ++ (ntSPre4 ++ (TRANSCRIPT_PLACEHOLDER ++ (ntSPost1)))))

/-- The humanities notes prompt template of prompts/notes_prompt.py. -/
def NOTES_PROMPT_HUMANITIES_TEMPLATE : String :=
  ntHPre1 ++ (ntHPre2 ++ (ntHPre3 ++ (ntHPre4 ++ (TRANSCRIPT_PLACEHOLDER ++ (ntHPost1)))))


/-- `get_notes_prompt(transcript, lecture_type)` of prompts/notes_prompt.py:
selects the template by lecture type (defaulting to the general one) and
substitutes the transcript. -/
def get_notes_prompt (transcript : String) (lecture_type : String) : Except String String :=
  let template :=
    if lecture_type = "general" then NOTES_PROMPT_TEMPLATE
    else if lecture_type = "stem" then NOTES_PROMPT_STEM_TEMPLATE
    else if lecture_type = "humanities" then NOTES_PROMPT_HUMANITIES_TEMPLATE
    else NOTES_PROMPT_TEMPLATE
  pyFormatTranscript template transcript

/-- RECOMMENDED_TEMPERATURE of prompts/notes_prompt.py (0.3). -/
def notesRecommendedTemperature : ℚ := 3/10

/-- RECOMMENDED_MAX_TOKENS of prompts/notes_prompt.py. -/
def notesRecommendedMaxTokens : Nat := 4096

/-! ## modules/action_extractor.py -/

/-- An action item record (dict with five string fields in the source). -/
structure ActionItem where
  category : String
  description : String
  due_date : String
  priority : String
  context : String
deriving DecidableEq, Repr

/-- `normalize_category` of modules/action_extractor.py: case-insensitive
substring matching against the fixed rule list, in source order. -/
def normalize_category (category : String) : String :=
  let cl := stripWS (lowerL category.data)
  if isSubstrL "assignment".data cl then "Assignment"
  else if isSubstrL "reading".data cl && isSubstrL "required".data cl then "Reading (Required)"
  else if isSubstrL "reading".data cl && isSubstrL "suggested".data cl then "Reading (Suggested)"
  else if isSubstrL "exam".data cl then "Exam"
  else if isSubstrL "deadline".data cl then "Deadline"
  else if isSubstrL "review".data cl then "Review Topic"
  else if isSubstrL "lab".data cl || isSubstrL "practical".data cl then "Lab/Practical"
  else "Other"

/-- `normalize_priority` of modules/action_extractor.py. -/
def normalize_priority (priority : String) : String :=
  let pl := stripWS (lowerL priority.data)
  if isSubstrL "high".data pl then "High"
  else if isSubstrL "low".data pl then "Low"
  else "Medium"

/-- Loop state of `parse_action_items`: accumulated items, the current
category (Python `None` or a string, possibly empty) and the currently
open item (Python `None` or a dict). -/
structure PAState where
  items : List ActionItem
  currentCategory : Option String
  currentItem : Option ActionItem
deriving DecidableEq, Repr

/-- The save-previous-item step of `parse_action_items`
(`if current_item and current_category:` — a non-`None` dict is always
truthy, a category string is truthy iff non-empty). -/
def paFlush (st : PAState) : List ActionItem :=
  match st.currentItem, st.currentCategory with
  | some it, some cat =>
    if cat ≠ "" then st.items ++ [{ it with category := normalize_category cat }]
    else st.items
  | _, _ => st.items

/-- One line of the `parse_action_items` scan. -/
def paStep (st : PAState) (line : List Char) : PAState :=
  let stripped := stripWS line
  if "###".data.isPrefixOf stripped then
    { st with currentCategory := some ⟨stripWS (stripped.drop 3)⟩ }
  else if "- **Description**:".data.isPrefixOf stripped then
    { items := paFlush st
      currentCategory := st.currentCategory
      currentItem := some
        { category := ""
          description := ⟨stripWS (stripped.drop 18)⟩
          due_date := "Not specified"
          priority := "Medium"
          context := "" } }
  else if "- **Due Date**:".data.isPrefixOf stripped && st.currentItem.isSome then
    match st.currentItem with
    | some it => { st with currentItem := some { it with due_date := ⟨stripWS (stripped.drop 15)⟩ } }
    | none => st
  else if "- **Priority**:".data.isPrefixOf stripped && st.currentItem.isSome then
    match st.currentItem with
    | some it =>
      { st with currentItem := some { it with priority := normalize_priority ⟨stripped.drop 15⟩ } }
    | none => st
  else if "- **Context**:".data.isPrefixOf stripped && st.currentItem.isSome then
    match st.currentItem with
    | some it =>
      let context := stripChars ['\x27'] (stripChars ['"'] (stripWS (stripped.drop 14)))
      { st with currentItem := some { it with context := ⟨context⟩ } }
    | none => st
  else st

/-- `parse_action_items` of modules/action_extractor.py: linear scan over
the lines of the raw LLM output, then a final flush. -/
def parse_action_items (raw_output : String) : List ActionItem :=
  paFlush ((pyLines raw_output).foldl paStep ⟨[], none, none⟩)

/-- `categorize_by_type` of modules/action_extractor.py: group the items
by category in first-appearance order (Python dict insertion order). -/
def categorize_by_type (action_items : List ActionItem) : List (String × List ActionItem) :=
  action_items.foldl
    (fun acc it =>
      if acc.any (fun p => p.1 = it.category) then
        acc.map (fun p => if p.1 = it.category then (p.1, p.2 ++ [it]) else p)
      else
        acc ++ [(it.category, [it])])
    []

/-- Insert into an ascending list, after existing equal keys (stable). -/
def insertSorted (s : String) : List String → List String
  | [] => [s]
  | t :: ts => if s < t then s :: t :: ts else t :: insertSorted s ts

/-- Python `sorted` on strings: stable ascending lexicographic order
(insertion sort, which the kernel can evaluate). -/
def pySortedStrings (l : List String) : List String :=
  l.foldl (fun acc s => insertSorted s acc) []

/-- The markdown block emitted by `format_actions_as_markdown` for one item. -/
def formatItemMarkdown (it : ActionItem) : String :=
  "- **" ++ it.description ++ "**\n" ++
  "  - Due Date: " ++ it.due_date ++ "\n" ++
  "  - Priority: " ++ it.priority ++ "\n" ++
  (if it.context ≠ "" then "  - Context: \"" ++ it.context ++ "\"\n" else "") ++
  "\n"

/-- `format_actions_as_markdown` of modules/action_extractor.py: `##`
heading per category (sorted), `- **description**` bullet per item with
indented plain `- Due Date:` / `- Priority:` / `- Context:` lines. -/
def format_actions_as_markdown (action_items : List ActionItem) : String :=
  if action_items.isEmpty then "No action items identified in this lecture."
  else
    let categorized := categorize_by_type action_items
    let sortedCats := pySortedStrings (categorized.map Prod.fst)
    sortedCats.foldl
      (fun md category =>
        let items := ((categorized.filter (fun p => p.1 = category)).map Prod.snd).flatten
        md ++ "## " ++ category ++ "\n\n" ++
          items.foldl (fun acc it => acc ++ formatItemMarkdown it) "")
      "# Action Items\n\n"

/-- One recorded LLM invocation (prompt, temperature, max tokens). -/
structure LLMCall where
  prompt : String
  temperature : ℚ
  maxTokens : Nat
deriving DecidableEq

/-- Result of `extract_action_items`: the Python triple
`(action_items_list | None, error | None, raw_output)`, plus the list of
LLM calls that were made (for stating retry behaviour). -/
structure ExtractResult where
  items : Option (List ActionItem)
  error : Option String
  raw : String
  calls : List LLMCall
deriving DecidableEq

/-- `extract_action_items` of modules/action_extractor.py.  `llm k` gives
the `(response_text, error)` outcome of the `k`-th LLM call (the response
text is meaningful only when the error is `none`, matching the Python
`(text, None) / (None, error)` convention).  A `str.format` exception
while building the prompt surfaces as `Except.error`. -/
def extract_action_items (transcript : String) (lecture_date : Option String)
    (temperature : Option ℚ) (max_tokens : Option Nat)
    (llm : Nat → String × Option String) : Except String ExtractResult :=
  let temperature := temperature.getD actionsRecommendedTemperature
  let max_tokens := max_tokens.getD actionsRecommendedMaxTokens
  match get_actions_prompt transcript lecture_date with
  | .error e => .error e
  | .ok prompt =>
    let r0 := llm 0
    let call0 : LLMCall := ⟨prompt, temperature, max_tokens⟩
    match r0.2 with
    | some e => .ok ⟨none, some e, "", [call0]⟩
    | none =>
      let raw0 := r0.1
      if isSubstr ⟨lowerL raw0.data⟩ "no action items identified" then
        .ok ⟨some [], none, raw0, [call0]⟩
      else
        let action_items := parse_action_items raw0
        if action_items.length = 0 && !(isSubstr ⟨lowerL raw0.data⟩ "no action items") then
          let retry_prompt := prompt ++ "\n\nCRITICAL: You MUST use the exact format specified above with markdown headers (###) and bullet points. Include ALL action items mentioned."
          let r1 := llm 1
          let call1 : LLMCall := ⟨retry_prompt, temperature * (4/5), max_tokens⟩
          match r1.2 with
          | some e => .ok ⟨none, some ("Retry failed: " ++ e), "", [call0, call1]⟩
          | none => .ok ⟨some (parse_action_items r1.1), none, r1.1, [call0, call1]⟩
        else
          .ok ⟨some action_items, none, raw0, [call0]⟩

/-! ## modules/note_formatter.py -/

/-- A line matched by `re.findall(r'^### .+$', ..., re.MULTILINE)`:
starts with `### ` followed by at least one character. -/
def mainTopicLine (l : List Char) : Bool :=
  "### ".data.isPrefixOf l && decide (5 ≤ l.length)

/-- A line matched by `re.findall(r'^#### .+$', ..., re.MULTILINE)`. -/
def subTopicLine (l : List Char) : Bool :=
  "#### ".data.isPrefixOf l && decide (6 ≤ l.length)

/-- A line matched by `re.findall(r'^\s*[-*•] .+$', ..., re.MULTILINE)`:
optional leading whitespace, a bullet character, a space, then at least
one character. -/
def bulletLine (l : List Char) : Bool :=
  match l.dropWhile isPySpace with
  | b :: ' ' :: rest => (b = '-' || b = '*' || b = '•') && !rest.isEmpty
  | _ => false

/-- The main-topics-before-subtopics check of `validate_notes_structure`
(lines 120-128): scan stripped lines; a `#### ` line before any `### `
line is a structural error. -/
def subBeforeMain : Bool → List (List Char) → Bool
  | _, [] => false
  | found, l :: rest =>
    let s := stripWS l
    if "### ".data.isPrefixOf s then subBeforeMain true rest
    else if "#### ".data.isPrefixOf s && !found then true
    else subBeforeMain found rest

/-- `validate_notes_structure` of modules/note_formatter.py: returns
`(is_valid, errors)` with the source's literal error strings, accumulated
in source order. -/
def validate_notes_structure (notes_markdown : String) : Bool × List String :=
  if notes_markdown = "" || (pyStrip notes_markdown).data.length = 0 then
    (false, ["Notes are empty"])
  else
    let lines := pyLines notes_markdown
    let main_topics := (lines.filter mainTopicLine).length
    let subtopics := (lines.filter subTopicLine).length
    let bullet_points := (lines.filter bulletLine).length
    let errors :=
      (if main_topics < 1 then ["No main topics found. Expected at least 1"] else []) ++
      (if 15 < main_topics then
        ["Too many main topics (" ++ toString main_topics ++ "). Expected 3-7"] else []) ++
      (if 0 < main_topics && subtopics < 1 then
        ["No subtopics found. Expected at least 1 per main topic"] else []) ++
      (if bullet_points < 2 then
        ["Too few bullet points (" ++ toString bullet_points ++ "). Expected some detailed notes"]
       else []) ++
      (if subBeforeMain false lines then ["Subtopic found before any main topic"] else [])
    (errors.length = 0, errors)

/-- A subtopic node of the parsed notes hierarchy. -/
structure Subtopic where
  title : String
  content : String
deriving DecidableEq, Repr

/-- A main-topic node of the parsed notes hierarchy. -/
structure MainTopic where
  title : String
  content : String
  subtopics : List Subtopic
deriving DecidableEq, Repr

/-- Loop state of `parse_notes_hierarchy`: finished main topics, the open
main topic, the open subtopic, and the accumulated body lines
(`current_content`, kept as the original unstripped lines). -/
structure NHState where
  mains : List MainTopic
  currentMain : Option MainTopic
  currentSub : Option Subtopic
  currentContent : List (List Char)
deriving DecidableEq, Repr

/-- `'\n'.join(current_content).strip()` — the body text attached to a
subtopic when it is closed. -/
def joinContent (ls : List (List Char)) : String :=
  ⟨stripWS (List.intercalate ['\n'] ls)⟩

/-- One line of the `parse_notes_hierarchy` scan. -/
def nhStep (st : NHState) (line : List Char) : NHState :=
  let stripped := stripWS line
  if "### ".data.isPrefixOf stripped then
    let st1 :=
      match st.currentSub, st.currentMain with
      | some sub, some m =>
        { st with
            currentMain := some
              { m with subtopics := m.subtopics ++ [{ sub with content := joinContent st.currentContent }] }
            currentContent := [] }
      | _, _ => st
    let st2 :=
      match st1.currentMain with
      | some m => { st1 with mains := st1.mains ++ [m] }
      | none => st1
    { st2 with
        currentMain := some { title := ⟨stripWS (stripped.drop 4)⟩, content := "", subtopics := [] }
        currentSub := none }
  else if "#### ".data.isPrefixOf stripped then
    let st1 :=
      match st.currentSub, st.currentMain with
      | some sub, some m =>
        { st with
            currentMain := some
              { m with subtopics := m.subtopics ++ [{ sub with content := joinContent st.currentContent }] } }
      | _, _ => st
    { st1 with
        currentSub := some { title := ⟨stripWS (stripped.drop 5)⟩, content := "" }
        currentContent := [] }
  else
    if !stripped.isEmpty then { st with currentContent := st.currentContent ++ [line] }
    else st

/-- The end-of-input flush of `parse_notes_hierarchy` (save the last open
subtopic, then the last open main topic). -/
def nhFinish (st : NHState) : List MainTopic :=
  let st1 :=
    match st.currentSub, st.currentMain with
    | some sub, some m =>
      { st with
          currentMain := some
            { m with subtopics := m.subtopics ++ [{ sub with content := joinContent st.currentContent }] } }
    | _, _ => st
  match st1.currentMain with
  | some m => st1.mains ++ [m]
  | none => st1.mains

/-- `parse_notes_hierarchy` of modules/note_formatter.py: the returned
dictionary is `{'main_topics': ...}`; this embedding returns the
`main_topics` list. -/
def parse_notes_hierarchy (notes_markdown : String) : List MainTopic :=
  nhFinish ((pyLines notes_markdown).foldl nhStep ⟨[], none, none, []⟩)

/-- Counter for `re.findall(r'\*\*([^*]+)\*\*', ...)`: leftmost
non-overlapping `**...**` pairs with a nonempty star-free inside.  Fuel
`l.length` suffices since every step consumes at least one character. -/
def countBoldGo : Nat → List Char → Nat
  | 0, _ => 0
  | _ + 1, [] => 0
  | fuel + 1, c :: rest =>
    match c, rest with
    | '*', '*' :: rest2 =>
      let run := rest2.takeWhile (fun x => x ≠ '*')
      let tail := rest2.dropWhile (fun x => x ≠ '*')
      if !run.isEmpty && "**".data.isPrefixOf tail then
        countBoldGo fuel (tail.drop 2) + 1
      else
        countBoldGo fuel rest
    | _, _ => countBoldGo fuel rest

/-- The metadata dictionary of `get_notes_metadata`. -/
structure NotesMetadata where
  main_topics_count : Nat
  subtopics_count : Nat
  word_count : Nat
  character_count : Nat
  bullet_points_count : Nat
  key_concepts_count : Nat
deriving DecidableEq, Repr

/-- `get_notes_metadata` of modules/note_formatter.py: independent pattern
scans over the full text. -/
def get_notes_metadata (notes_markdown : String) : NotesMetadata :=
  let lines := pyLines notes_markdown
  { main_topics_count := (lines.filter mainTopicLine).length
    subtopics_count := (lines.filter subTopicLine).length
    word_count := (pySplitWS notes_markdown.data).length
    character_count := notes_markdown.data.length
    bullet_points_count := (lines.filter bulletLine).length
    key_concepts_count := countBoldGo notes_markdown.data.length notes_markdown.data }

/-- Result of `generate_structured_notes`: the Python triple
`(notes_markdown | None, error | None, metadata)` (the empty metadata dict
`{}` of the failure paths is modelled as `none`), plus the list of LLM
calls that were made. -/
structure NotesResult where
  notes : Option String
  error : Option String
  metadata : Option NotesMetadata
  calls : List LLMCall
deriving DecidableEq

/-- `generate_structured_notes` of modules/note_formatter.py.  `llm k`
gives the `(response_text, error)` outcome of the `k`-th LLM call.  A
`str.format` exception while building the prompt surfaces as
`Except.error`. -/
def generate_structured_notes (transcript : String) (lecture_type : String)
    (temperature : Option ℚ) (max_tokens : Option Nat)
    (llm : Nat → String × Option String) : Except String NotesResult :=
  let temperature := temperature.getD notesRecommendedTemperature
  let max_tokens := max_tokens.getD notesRecommendedMaxTokens
  match get_notes_prompt transcript lecture_type with
  | .error e => .error e
  | .ok prompt =>
    let r0 := llm 0
    let call0 : LLMCall := ⟨prompt, temperature, max_tokens⟩
    match r0.2 with
    | some e => .ok ⟨none, some e, none, [call0]⟩
    | none =>
      let notes0 := r0.1
      if !(validate_notes_structure notes0).1 then
        let retry_prompt := prompt ++ "\n\nCRITICAL: You MUST use the exact markdown format specified above. Start with ### for main topics and #### for subtopics."
        let r1 := llm 1
        let call1 : LLMCall := ⟨retry_prompt, temperature * (4/5), max_tokens⟩
        match r1.2 with
        | some e => .ok ⟨none, some ("Retry failed: " ++ e), none, [call0, call1]⟩
        | none =>
          let notes1 := r1.1
          let v1 := validate_notes_structure notes1
          if !v1.1 then
            .ok ⟨some notes1,
                 some ("Warning: Notes structure may be incomplete. Issues: " ++
                   String.intercalate ", " v1.2),
                 some (get_notes_metadata notes1), [call0, call1]⟩
          else
            .ok ⟨some notes1, none, some (get_notes_metadata notes1), [call0, call1]⟩
      else
        .ok ⟨some notes0, none, some (get_notes_metadata notes0), [call0]⟩

/-! ## modules/llm_processor.py — generate_lecture_title -/

/-- Everything of the title prompt before the transcript sample. -/
def titlePromptPrefix : String :=
  "Based on the following lecture transcript excerpt, generate a concise, descriptive title for this lecture.\n\nRequirements:\n- Keep it SHORT (3-8 words maximum)\n- Focus on the main topic or subject\n- Use formal academic language\n- Do NOT include quotation marks\n- Do NOT include words like \"Lecture on\" or \"Introduction to\" unless essential\n- Just the core topic\n\nTranscript excerpt:\n"

/-- Everything of the title prompt after the transcript sample. -/
def titlePromptSuffix : String :=
  "\n\nGenerate ONLY the title, nothing else:"

/-- Python `title[:100].rsplit(' ', 1)[0]`: the part before the last
space, or the whole list when it has no space. -/
def beforeLastSpace (l : List Char) : List Char :=
  if l.contains ' ' then ((l.reverse.dropWhile (fun c => c ≠ ' ')).drop 1).reverse
  else l

/-- The title cleanup of `generate_lecture_title` (lines 233-239 of
modules/llm_processor.py): guarded by Python truthiness of `title`, strip
whitespace, strip double then single quotes, and truncate titles longer
than 100 characters to the first 100 characters cut at the last space,
plus `"..."`. -/
def cleanLectureTitle (title : String) : String :=
  if title = "" then title
  else
    let t := stripChars ['\x27'] (stripChars ['"'] (stripWS title.data))
    if 100 < t.length then ⟨beforeLastSpace (t.take 100)⟩ ++ "..."
    else ⟨t⟩

/-- `generate_lecture_title` of modules/llm_processor.py, with the LLM
call oracle; returns the Python pair `(title | None, error | None)` and
the recorded call (temperature 0.2, max tokens 50). -/
def generate_lecture_title (transcript : String)
    (llm : Nat → String × Option String) : (Option String × Option String) × List LLMCall :=
  let transcript_sample :=
    if 2000 < transcript.data.length then (⟨transcript.data.take 2000⟩ : String) else transcript
  let prompt := titlePromptPrefix ++ transcript_sample ++ titlePromptSuffix
  let r := llm 0
  let call0 : LLMCall := ⟨prompt, 1/5, 50⟩
  match r.2 with
  | some e => ((none, some e), [call0])
  | none => ((some (cleanLectureTitle r.1), none), [call0])

/-! ## modules/transcription.py — validate_transcript -/

/-- `validate_transcript` of modules/transcription.py: quality gate on a
transcript string.  The Python repetition threshold
`len(unique_words) < len(words) * 0.1` is modelled with the exact rational
`len(words) / 10`; at every word count a claim touches the two agree. -/
def validate_transcript (transcript : String) : Bool × String :=
  if transcript = "" || (pyStrip transcript).data.length = 0 then
    (false, "Transcript is empty. Audio may be silent or unclear.")
  else
    let words := pySplitWS transcript.data
    if words.length < 10 then
      (false, "Transcript is very short (" ++ toString words.length ++ " words). Audio may be unclear.")
    else
      if (words.dedup.length : ℚ) < (words.length : ℚ) * (1/10) then
        (false, "Transcript has excessive repetition. Audio quality may be poor.")
      else
        (true, "")

/-! ## General lemmas: substring over appends -/

theorem isSubstrL_true_iff (pat l : List Char) : isSubstrL pat l = true ↔ pat <:+: l := by
  induction l with
  | nil =>
    simp [isSubstrL, List.isEmpty_iff]
  | cons c rest ih =>
    simp [isSubstrL, List.infix_cons_iff, ih, List.isPrefixOf_iff_prefix]

theorem isPrefixOf_append_take (pat x l : List Char) (k : Nat) (h : pat.length ≤ x.length + k) :
    pat.isPrefixOf (x ++ l.take k) = pat.isPrefixOf (x ++ l) := by
  rw [Bool.eq_iff_iff]
  simp only [List.isPrefixOf_iff_prefix, List.prefix_iff_eq_take]
  rw [List.take_append_eq_append_take, List.take_append_eq_append_take, List.take_take,
    Nat.min_eq_left (by omega : pat.length - x.length ≤ k)]

theorem isSubstrL_append_split (pat x y : List Char) (h : pat ≠ []) :
    isSubstrL pat (x ++ y) =
      (isSubstrL pat (x ++ y.take (pat.length - 1)) || isSubstrL pat y) := by
  induction x with
  | nil =>
    simp only [List.nil_append]
    rw [Bool.eq_iff_iff]
    constructor
    · intro hy
      simp [hy]
    · intro hor
      rcases Bool.or_eq_true_iff.mp hor with ht | hy
      · rw [isSubstrL_true_iff] at ht ⊢
        exact ht.trans (List.take_prefix _ _).isInfix
      · exact hy
  | cons c x' ih =>
    have hlen : pat.length ≤ (c :: x').length + (pat.length - 1) := by
      have : 1 ≤ pat.length := List.length_pos.mpr h
      simp [List.length_cons]
      omega
    calc isSubstrL pat (c :: x' ++ y)
        = (pat.isPrefixOf (c :: (x' ++ y)) || isSubstrL pat (x' ++ y)) := rfl
      _ = (pat.isPrefixOf (c :: (x' ++ y.take (pat.length - 1))) || isSubstrL pat (x' ++ y)) := by
          rw [← List.cons_append, ← List.cons_append, isPrefixOf_append_take _ _ _ _ hlen]
      _ = (pat.isPrefixOf (c :: (x' ++ y.take (pat.length - 1))) ||
            (isSubstrL pat (x' ++ y.take (pat.length - 1)) || isSubstrL pat y)) := by rw [ih]
      _ = (isSubstrL pat (c :: x' ++ y.take (pat.length - 1)) || isSubstrL pat y) := by
          simp [isSubstrL, Bool.or_assoc]

/-! ## Chunked scanning: substring absence over a chunk list -/

/-- Right-nested concatenation of a list of chunks. -/
def chainedAppend : List (List Char) → List Char
  | [] => []
  | x :: xs => x ++ chainedAppend xs

/-- `(chainedAppend L).take k` computed without flattening the chunks. -/
def takeChunked (k : Nat) : List (List Char) → List Char
  | [] => []
  | x :: xs => if k ≤ x.length then x.take k else x ++ takeChunked (k - x.length) xs

theorem takeChunked_eq (k : Nat) (L : List (List Char)) :
    takeChunked k L = (chainedAppend L).take k := by
  induction L generalizing k with
  | nil => simp [takeChunked, chainedAppend]
  | cons x xs ih =>
    simp only [takeChunked, chainedAppend, List.take_append_eq_append_take]
    split
    · next hk =>
      rw [Nat.sub_eq_zero_of_le hk]
      simp
    · next hk =>
      rw [List.take_of_length_le (by omega), ih]

/-- Per-chunk certificate that `pat` occurs nowhere in the concatenation:
no occurrence inside any chunk nor across a chunk boundary. -/
def noOccChunked (pat : List Char) : List (List Char) → Bool
  | [] => true
  | x :: xs =>
    !(isSubstrL pat (x ++ takeChunked (pat.length - 1) xs)) && noOccChunked pat xs

theorem noOccChunked_correct (pat : List Char) (h : pat ≠ []) (L : List (List Char))
    (hc : noOccChunked pat L = true) : isSubstrL pat (chainedAppend L) = false := by
  induction L with
  | nil =>
    simpa [isSubstrL, List.isEmpty_iff] using h
  | cons x xs ih =>
    simp only [noOccChunked, Bool.and_eq_true, Bool.not_eq_true'] at hc
    rw [takeChunked_eq] at hc
    rw [chainedAppend, isSubstrL_append_split pat _ _ h, hc.1, ih hc.2]
    rfl

/-! ## Format scanner over clean chunks -/

theorem fmtGo_clean_append (v T rest : List Char) (hT : braceFreeL T = true) :
    fmtGo v .normal (T ++ rest) = (fmtGo v .normal rest).map (T ++ ·) := by
  induction T with
  | nil =>
    cases hr : fmtGo v .normal rest <;> simp [Except.map, hr]
  | cons c T' ih =>
    simp only [braceFreeL, List.all_cons, Bool.and_eq_true, Bool.not_eq_true',
      decide_eq_false_iff_not] at hT
    obtain ⟨⟨h1, h2⟩, h3⟩ := hT
    have ih' := ih h3
    rw [List.cons_append]
    show (if c = '\x7b' then fmtGo v (.field []) (T' ++ rest)
      else if c = '\x7d' then fmtGo v .rbrace (T' ++ rest)
      else (fmtGo v .normal (T' ++ rest)).map (c :: ·)) = _
    rw [if_neg h1, if_neg h2, ih']
    cases hr : fmtGo v .normal rest <;> simp [hr, Except.map]

theorem fmtGo_placeholder (v rest : List Char) :
    fmtGo v .normal (TRANSCRIPT_PLACEHOLDER.data ++ rest) =
      (fmtGo v .normal rest).map (v ++ ·) := by
  show fmtGo v .normal ('\x7b' :: ("transcript".data ++ ('\x7d' :: rest))) = _
  simp [fmtGo]

theorem fmtGo_clean_nil (v T : List Char) (hT : braceFreeL T = true) :
    fmtGo v .normal T = .ok T := by
  have := fmtGo_clean_append v T [] hT
  simpa [fmtGo, Except.map] using this

/-! ## Replace and brace-freedom lemmas -/

theorem replaceGo_of_not_substr (pat rep l : List Char) (h : isSubstrL pat l = false) :
    ∀ fuel, replaceGo pat rep fuel l = l := by
  induction l with
  | nil => intro fuel; cases fuel <;> rfl
  | cons c rest ih =>
    intro fuel
    have hdef : isSubstrL pat (c :: rest) = (pat.isPrefixOf (c :: rest) || isSubstrL pat rest) := rfl
    rw [hdef, Bool.or_eq_false_iff] at h
    cases fuel with
    | zero => rfl
    | succ fuel' =>
      show (if pat.isPrefixOf (c :: rest) && !pat.isEmpty then _ else _) = _
      rw [h.1]
      simp only [Bool.false_and, if_neg (by simp : ¬(false = true))]
      rw [ih h.2]

/-- `⟨s.data⟩ = s` (structure eta for `String`). -/
theorem stringMk_data (s : String) : (⟨s.data⟩ : String) = s := by
  cases s
  rfl

theorem substr_of_braceFree (pat l : List Char) (hl : braceFreeL l = true)
    (hp : '\x7b' ∈ pat) : isSubstrL pat l = false := by
  by_contra hc
  rw [Bool.not_eq_false, isSubstrL_true_iff] at hc
  have hsub : pat ⊆ l := hc.subset
  have := hsub hp
  simp only [braceFreeL, List.all_eq_true] at hl
  have := hl _ this
  simp at this

theorem braceFreeL_append (a b : List Char) :
    braceFreeL (a ++ b) = (braceFreeL a && braceFreeL b) := by
  simp [braceFreeL, List.all_append]

/-! ## The formatted prompts -/

/-- The prompt produced by substituting `t` into ACTIONS_PROMPT_TEMPLATE. -/
def actionsPromptOf (t : String) : String :=
  actPre1 ++ (actPre2 ++ (actPre3 ++ (actPre4 ++ (actPre5 ++ (actPre6 ++ (actPre7 ++ (actPre8 ++ (actPre9 ++ (actPre10 ++ (actPre11 ++ (actPre12 ++ (actPre13 ++ (actPre14 ++ (t ++ actPost1))))))))))))))

/-- The prompt produced by substituting `t` into NOTES_PROMPT_TEMPLATE. -/
def notesPromptOf (t : String) : String :=
  ntGPre1 ++ (ntGPre2 ++ (ntGPre3 ++ (ntGPre4 ++ (ntGPre5 ++ (ntGPre6 ++ (ntGPre7 ++ (ntGPre8 ++ (ntGPre9 ++ (t ++ ntGPost1)))))))))

theorem fmtGo_actions (t : String) :
    fmtGo t.data .normal ACTIONS_PROMPT_TEMPLATE.data = .ok (actionsPromptOf t).data := by
  show fmtGo t.data .normal
      (actPre1 ++ (actPre2 ++ (actPre3 ++ (actPre4 ++ (actPre5 ++ (actPre6 ++ (actPre7 ++ (actPre8 ++ (actPre9 ++ (actPre10 ++ (actPre11 ++ (actPre12 ++ (actPre13 ++ (actPre14 ++ (TRANSCRIPT_PLACEHOLDER ++ actPost1))))))))))))))).data
      = .ok (actionsPromptOf t).data
  simp only [String.data_append, actionsPromptOf]
  rw [fmtGo_clean_append _ _ _ (by decide), fmtGo_clean_append _ _ _ (by decide),
    fmtGo_clean_append _ _ _ (by decide), fmtGo_clean_append _ _ _ (by decide),
    fmtGo_clean_append _ _ _ (by decide), fmtGo_clean_append _ _ _ (by decide),
    fmtGo_clean_append _ _ _ (by decide), fmtGo_clean_append _ _ _ (by decide),
    fmtGo_clean_append _ _ _ (by decide), fmtGo_clean_append _ _ _ (by decide),
    fmtGo_clean_append _ _ _ (by decide), fmtGo_clean_append _ _ _ (by decide),
    fmtGo_clean_append _ _ _ (by decide), fmtGo_clean_append _ _ _ (by decide),
    fmtGo_placeholder, fmtGo_clean_nil _ _ (by decide)]
  simp [Except.map]

theorem pyFormatTranscript_eq_ok (tmpl v : String) (r : List Char)
    (h : fmtGo v.data .normal tmpl.data = .ok r) : pyFormatTranscript tmpl v = .ok ⟨r⟩ := by
  unfold pyFormatTranscript
  rw [h]

theorem get_actions_prompt_none (t : String) :
    get_actions_prompt t none = .ok (actionsPromptOf t) := by
  unfold get_actions_prompt
  rw [pyFormatTranscript_eq_ok _ _ _ (fmtGo_actions t), stringMk_data]

theorem fmtGo_notes (t : String) :
    fmtGo t.data .normal NOTES_PROMPT_TEMPLATE.data = .ok (notesPromptOf t).data := by
  show fmtGo t.data .normal
      (ntGPre1 ++ (ntGPre2 ++ (ntGPre3 ++ (ntGPre4 ++ (ntGPre5 ++ (ntGPre6 ++ (ntGPre7 ++ (ntGPre8 ++ (ntGPre9 ++ (TRANSCRIPT_PLACEHOLDER ++ ntGPost1)))))))))).data
      = .ok (notesPromptOf t).data
  simp only [String.data_append, notesPromptOf]
  rw [fmtGo_clean_append _ _ _ (by decide), fmtGo_clean_append _ _ _ (by decide),
    fmtGo_clean_append _ _ _ (by decide), fmtGo_clean_append _ _ _ (by decide),
    fmtGo_clean_append _ _ _ (by decide), fmtGo_clean_append _ _ _ (by decide),
    fmtGo_clean_append _ _ _ (by decide), fmtGo_clean_append _ _ _ (by decide),
    fmtGo_clean_append _ _ _ (by decide), fmtGo_placeholder, fmtGo_clean_nil _ _ (by decide)]
  simp [Except.map]

theorem get_notes_prompt_eq_general (t : String) :
    get_notes_prompt t "general" = pyFormatTranscript NOTES_PROMPT_TEMPLATE t := rfl

theorem get_notes_prompt_general (t : String) :
    get_notes_prompt t "general" = .ok (notesPromptOf t) := by
  rw [get_notes_prompt_eq_general, pyFormatTranscript_eq_ok _ _ _ (fmtGo_notes t), stringMk_data]

/-! ## The lecture-date path of get_actions_prompt -/

/-- The chunks whose concatenation is `(actionsPromptOf t).data`. -/
def actionsChunksOf (t : String) : List (List Char) :=
  [actPre1.data, actPre2.data, actPre3.data, actPre4.data, actPre5.data, actPre6.data,
   actPre7.data, actPre8.data, actPre9.data, actPre10.data, actPre11.data, actPre12.data,
   actPre13.data, actPre14.data, t.data, actPost1.data]

theorem actionsPromptOf_data_chain (t : String) :
    (actionsPromptOf t).data = chainedAppend (actionsChunksOf t) := by
  simp [actionsPromptOf, actionsChunksOf, chainedAppend, String.data_append]

theorem pyFormatTranscript_clean (s v : String) (hs : braceFreeL s.data = true) :
    pyFormatTranscript s v = .ok s := by
  rw [pyFormatTranscript_eq_ok _ _ _ (fmtGo_clean_nil _ _ hs), stringMk_data]

theorem pyReplace_id (s pat rep : String) (h : isSubstrL pat.data s.data = false) :
    pyReplace s pat rep = s := by
  unfold pyReplace
  rw [replaceGo_of_not_substr _ _ _ h, stringMk_data]

theorem braceFree_actionsPromptOf (t : String) (ht : braceFreeL t.data = true) :
    braceFreeL (actionsPromptOf t).data = true := by
  simp only [actionsPromptOf, String.data_append, braceFreeL_append, ht, Bool.true_and,
    Bool.and_true]
  decide

theorem noOcc_rpat_general (t : String) (ht : braceFreeL t.data = true) :
    isSubstrL ("TRANSCRIPT:\n" ++ TRANSCRIPT_PLACEHOLDER).data (actionsPromptOf t).data = false := by
  refine substr_of_braceFree _ _ (braceFree_actionsPromptOf t ht) ?_
  decide

theorem noOcc_lecdate_hello :
    isSubstrL "LECTURE DATE".data (actionsPromptOf "hello").data = false := by
  rw [actionsPromptOf_data_chain]
  exact noOccChunked_correct _ (by decide) _ (by decide)

theorem get_actions_prompt_some_eq (t d p : String)
    (hfmt : pyFormatTranscript ACTIONS_PROMPT_TEMPLATE t = .ok p) (hd : ¬d = "") :
    get_actions_prompt t (some d) =
      pyFormatTranscript
        (pyReplace p ("TRANSCRIPT:\n" ++ TRANSCRIPT_PLACEHOLDER)
          ("LECTURE DATE: " ++ d ++ "\n\nTRANSCRIPT:\n" ++ TRANSCRIPT_PLACEHOLDER)) t := by
  unfold get_actions_prompt
  rw [hfmt]
  dsimp only
  rw [if_neg hd]

theorem get_actions_prompt_date (t : String) (ht : braceFreeL t.data = true)
    (d : String) (hd : ¬d = "") :
    get_actions_prompt t (some d) = .ok (actionsPromptOf t) := by
  rw [get_actions_prompt_some_eq t d (actionsPromptOf t)
      (by rw [pyFormatTranscript_eq_ok _ _ _ (fmtGo_actions t), stringMk_data]) hd,
    pyReplace_id _ _ _ (noOcc_rpat_general t ht),
    pyFormatTranscript_clean _ _ (braceFree_actionsPromptOf t ht)]

/-! ## Claim-specific auxiliary facts -/

theorem noOcc_rpat_brace :
    isSubstrL ("TRANSCRIPT:\n" ++ TRANSCRIPT_PLACEHOLDER).data (actionsPromptOf "\x7b").data
      = false := by
  rw [actionsPromptOf_data_chain]
  exact noOccChunked_correct _ (by decide) _ (by decide)

theorem fmtGo_actions_brace :
    fmtGo "\x7b".data .normal (actionsPromptOf "\x7b").data =
      .error "Single brace encountered in format string" := by
  simp only [actionsPromptOf, String.data_append]
  rw [fmtGo_clean_append _ _ _ (by decide), fmtGo_clean_append _ _ _ (by decide),
    fmtGo_clean_append _ _ _ (by decide), fmtGo_clean_append _ _ _ (by decide),
    fmtGo_clean_append _ _ _ (by decide), fmtGo_clean_append _ _ _ (by decide),
    fmtGo_clean_append _ _ _ (by decide), fmtGo_clean_append _ _ _ (by decide),
    fmtGo_clean_append _ _ _ (by decide), fmtGo_clean_append _ _ _ (by decide),
    fmtGo_clean_append _ _ _ (by decide), fmtGo_clean_append _ _ _ (by decide),
    fmtGo_clean_append _ _ _ (by decide), fmtGo_clean_append _ _ _ (by decide)]
  rw [show ("\x7b" : String).data ++ actPost1.data = '\x7b' :: actPost1.data from rfl]
  rw [show fmtGo "\x7b".data .normal ('\x7b' :: actPost1.data)
        = fmtGo "\x7b".data (.field []) actPost1.data from rfl]
  rw [show fmtGo "\x7b".data (.field []) actPost1.data
        = .error "Single brace encountered in format string" from rfl]
  simp [Except.map]

/-! ## C2 -/

/-- C2: get_actions_prompt with a non-empty lecture_date never inserts a
"LECTURE DATE" line: at transcript "hello" and date "2024-01-15" the
returned prompt contains no "LECTURE DATE" substring and equals the prompt
returned without a date (the `replace` searches for the literal
`TRANSCRIPT:\n{transcript}` in the already substituted prompt, where it no
longer occurs). -/
theorem C2_code_bug_eval :
    (get_actions_prompt "hello" (some "2024-01-15")).map
        (fun p => isSubstr p "LECTURE DATE") = .ok false ∧
    get_actions_prompt "hello" (some "2024-01-15") = get_actions_prompt "hello" none := by
  have hd := get_actions_prompt_date "hello" (by decide) "2024-01-15" (by decide)
  constructor
  · rw [hd]
    exact congrArg Except.ok noOcc_lecdate_hello
  · rw [hd, get_actions_prompt_none]

/-! ## C10 -/

/-- C10 counterexample: with a lecture date supplied and a transcript
consisting of a single `\x7b` character, `get_actions_prompt` raises (the
second `.format` call scans the substituted transcript), refuting totality
as claimed. -/
theorem C10_counterexample :
    get_actions_prompt "\x7b" (some "2024-01-15") =
      .error "Single brace encountered in format string" := by
  rw [get_actions_prompt_some_eq "\x7b" "2024-01-15" (actionsPromptOf "\x7b")
      (by rw [pyFormatTranscript_eq_ok _ _ _ (fmtGo_actions _), stringMk_data]) (by decide),
    pyReplace_id _ _ _ noOcc_rpat_brace]
  unfold pyFormatTranscript
  rw [fmtGo_actions_brace]

/-- C10 amended: get_actions_prompt always returns a prompt when
lecture_date is absent; when a non-empty lecture_date is supplied it
returns a prompt for every transcript free of brace characters (for
transcripts containing stray braces it raises, see the counterexample). -/
theorem C10_amended_thm (t : String) :
    (get_actions_prompt t none).isOk = true ∧
    (braceFreeL t.data = true →
      ∀ d : String, ¬d = "" → (get_actions_prompt t (some d)).isOk = true) := by
  constructor
  · rw [get_actions_prompt_none]
    rfl
  · intro ht d hd
    rw [get_actions_prompt_date t ht d hd]
    rfl

/-- Witness for C10 amended at transcript "hello", date "2024-01-15". -/
theorem C10_amended_witness :
    (get_actions_prompt "hello" none).isOk = true ∧
    (get_actions_prompt "hello" (some "2024-01-15")).isOk = true :=
  ⟨(C10_amended_thm "hello").1,
   (C10_amended_thm "hello").2 (by decide) "2024-01-15" (by decide)⟩

/-! ## C1 -/

/-- The concrete raw markdown of C1: one category heading, two Description
bullets each followed by Due Date, Priority and Context field lines. -/
def c1Raw : String :=
  "### Assignment\n- **Description**: Read chapter 3\n  - **Due Date**: 2024-01-15\n  - **Priority**: High\n  - **Context**: Quoted in lecture\n- **Description**: Submit homework 2\n  - **Due Date**: Not specified\n  - **Priority**: Low\n  - **Context**: Mentioned at end\n"

/-- First item literally described by `c1Raw`. -/
def c1Item1 : ActionItem :=
  ⟨"Assignment", "Read chapter 3", "2024-01-15", "High", "Quoted in lecture"⟩

/-- Second item literally described by `c1Raw`. -/
def c1Item2 : ActionItem :=
  ⟨"Assignment", "Submit homework 2", "Not specified", "Low", "Mentioned at end"⟩

/-- C1 counterexample: parsing `c1Raw` yields 2 items, but re-parsing
`format_actions_as_markdown` of that list yields 0 items — not an
equivalent set (the formatter emits `##` headings and `- **description**`
bullets, which `parse_action_items` does not recognize). -/
theorem C1_counterexample :
    (parse_action_items c1Raw).length = 2 ∧
    (parse_action_items (format_actions_as_markdown (parse_action_items c1Raw))).length = 0 ∧
    ¬((parse_action_items (format_actions_as_markdown (parse_action_items c1Raw))).length =
        (parse_action_items c1Raw).length) := by
  decide

/-- C1 amended: parsing the raw markdown yields exactly the two items with
the literal field values; re-parsing the formatted markdown of that list
yields the empty list rather than an equivalent set. -/
theorem C1_amended_thm :
    parse_action_items c1Raw = [c1Item1, c1Item2] ∧
    parse_action_items (format_actions_as_markdown [c1Item1, c1Item2]) = [] := by
  decide

/-! ## C3 -/

/-- C3 counterexample: in `### A\nline1\n### B`, the non-blank non-heading
line `line1` appears under main topic A before any subtopic, yet A's (and
every topic's) `content` field is the empty string — the line is
discarded, not stored; and after the depth-1 heading `### B` the body
accumulation buffer still holds `line1` — it is not reset, because no
subtopic was open. -/
theorem C3_counterexample :
    (parse_notes_hierarchy "### A\nline1\n### B").map MainTopic.content = ["", ""] ∧
    ((pyLines "### A\nline1\n### B").foldl nhStep ⟨[], none, none, []⟩).currentContent =
      ["line1".data] := by
  decide


/-! ## C4 -/

/-- C4 counterexample: a 101-character single-word model reply is cleaned
to a 103-character title (100 characters plus `"..."`), exceeding the
claimed 100-character bound. -/
theorem C4_counterexample :
    ((generate_lecture_title "t"
        (fun _ => (⟨List.replicate 101 'a'⟩, none))).1.1).map String.length = some 103 ∧
    ¬(103 ≤ 100) := by
  constructor
  · decide
  · omega

theorem beforeLastSpace_length_le (l : List Char) :
    (beforeLastSpace l).length ≤ l.length := by
  unfold beforeLastSpace
  split
  · simp only [List.length_reverse]
    calc ((l.reverse.dropWhile fun c => c ≠ ' ').drop 1).length
        ≤ (l.reverse.dropWhile fun c => c ≠ ' ').length := by
          rw [List.length_drop]; omega
      _ ≤ l.reverse.length := ((l.reverse.dropWhile_sublist _).length_le)
      _ = l.length := List.length_reverse l
  · exact Nat.le_refl _

theorem cleanLectureTitle_le (s : String) : (cleanLectureTitle s).length ≤ 103 := by
  by_cases h0 : s = ""
  · subst h0
    decide
  · unfold cleanLectureTitle
    rw [if_neg h0]
    by_cases h1 :
        100 < (stripChars ['\x27'] (stripChars ['"'] (stripWS s.data))).length
    · rw [if_pos h1, String.length_append]
      have h2 : ((stripChars ['\x27'] (stripChars ['"'] (stripWS s.data))).take 100).length
          ≤ 100 := by
        simp [List.length_take]
      have h3 := beforeLastSpace_length_le
        ((stripChars ['\x27'] (stripChars ['"'] (stripWS s.data))).take 100)
      have h4 : (⟨beforeLastSpace ((stripChars ['\x27']
          (stripChars ['"'] (stripWS s.data))).take 100)⟩ : String).length =
          (beforeLastSpace ((stripChars ['\x27']
            (stripChars ['"'] (stripWS s.data))).take 100)).length := rfl
      rw [h4]
      have h5 : ("..." : String).length = 3 := rfl
      rw [h5]
      omega
    · rw [if_neg h1]
      have h4 : ((⟨stripChars ['\x27'] (stripChars ['"'] (stripWS s.data))⟩ : String)).length =
          (stripChars ['\x27'] (stripChars ['"'] (stripWS s.data))).length := rfl
      rw [h4]
      omega

/-- C4 amended: every title produced by `generate_lecture_title` is at
most 103 characters long (100 characters of truncated text plus the
three-character ellipsis; the claimed bound of 100 fails, see the
counterexample). -/
theorem C4_amended_thm (transcript : String) (llm : Nat → String × Option String)
    (title : String) (h : (generate_lecture_title transcript llm).1.1 = some title) :
    title.length ≤ 103 := by
  rcases hr : llm 0 with ⟨raw0, err0⟩
  unfold generate_lecture_title at h
  rw [hr] at h
  cases err0 with
  | some e => simp at h
  | none =>
    simp only [Option.some.injEq] at h
    rw [← h]
    exact cleanLectureTitle_le _

/-- Witness for C4 amended at a concrete reply. -/
theorem C4_amended_witness : ("Algebra" : String).length ≤ 103 :=
  C4_amended_thm "t" (fun _ => ("Algebra", none)) "Algebra" (by decide)

/-! ## C7 -/

/-- C7 counterexample: the empty notes document has exactly 0 depth-1
headings and fails validation, but reports "Notes are empty" rather than
the at-least-1 error, refuting the claim as stated. -/
theorem C7_counterexample :
    ((pyLines "").filter mainTopicLine).length = 0 ∧
    (validate_notes_structure "").1 = false ∧
    (validate_notes_structure "").2 = ["Notes are empty"] ∧
    ¬("No main topics found. Expected at least 1" ∈ (validate_notes_structure "").2) := by
  decide

theorem string_ne_of_take (n : Nat) (s t : String) (h : s.data.take n ≠ t.data.take n) :
    ¬s = t := by
  intro he
  exact h (congrArg (fun u => u.data.take n) he)

theorem take_append_left (l₁ l₂ : List Char) (n : Nat) (h : n ≤ l₁.length) :
    (l₁ ++ l₂).take n = l₁.take n := by
  rw [List.take_append_eq_append_take, Nat.sub_eq_zero_of_le h]
  simp

/-- The "Too few bullet points" message never coincides with the
at-least-1 message, whatever the count. -/
theorem bullet_msg_ne_main (b : Nat) :
    ¬("Too few bullet points (" ++ toString b ++ "). Expected some detailed notes" =
      "No main topics found. Expected at least 1") := by
  apply string_ne_of_take 3
  rw [String.data_append, String.data_append, List.append_assoc,
    take_append_left "Too few bullet points (".data _ 3 (by decide)]
  decide

/-- The "Too few bullet points" message never coincides with the
at-most-15 message, whatever the count. -/
theorem bullet_msg_ne_toomany (b : Nat) :
    ¬("Too few bullet points (" ++ toString b ++ "). Expected some detailed notes" =
      "Too many main topics (15). Expected 3-7") := by
  apply string_ne_of_take 5
  rw [String.data_append, String.data_append, List.append_assoc,
    take_append_left "Too few bullet points (".data _ 5 (by decide)]
  decide

/-- C7 amended: for every notes document that is non-blank after
stripping, the boundary behaviour is as claimed: with 0 depth-1 heading
lines validation fails reporting the at-least-1 error; with 1 that error
is absent; with 16 validation fails reporting the at-most-15 error; with
15 that error is absent. -/
theorem C7_amended_thm (md : String) (hs : ¬pyStrip md = "") :
    (((pyLines md).filter mainTopicLine).length = 0 →
      (validate_notes_structure md).1 = false ∧
      "No main topics found. Expected at least 1" ∈ (validate_notes_structure md).2) ∧
    (((pyLines md).filter mainTopicLine).length = 1 →
      ¬("No main topics found. Expected at least 1" ∈ (validate_notes_structure md).2)) ∧
    (((pyLines md).filter mainTopicLine).length = 16 →
      (validate_notes_structure md).1 = false ∧
      "Too many main topics (16). Expected 3-7" ∈ (validate_notes_structure md).2) ∧
    (((pyLines md).filter mainTopicLine).length = 15 →
      ¬("Too many main topics (15). Expected 3-7" ∈ (validate_notes_structure md).2)) := by
  have hmd : ¬md = "" := by
    intro he
    exact hs (by rw [he]; rfl)
  have hlen : ¬(pyStrip md).data.length = 0 := by
    intro he
    apply hs
    have h2 : (pyStrip md).data = [] := List.length_eq_zero.mp he
    calc pyStrip md = ⟨(pyStrip md).data⟩ := (stringMk_data _).symm
      _ = ⟨[]⟩ := by rw [h2]
  unfold validate_notes_structure
  rw [if_neg (by simp only [Bool.or_eq_true, decide_eq_true_eq, not_or]; exact ⟨hmd, hlen⟩)]
  dsimp only
  refine ⟨fun h0 => ?_, fun h1 => ?_, fun h16 => ?_, fun h15 => ?_⟩
  · rw [h0]
    norm_num
  · rw [h1]
    norm_num
    exact ⟨fun _ => by decide, fun _ he => bullet_msg_ne_main _ he.symm, fun _ => by decide⟩
  · rw [h16]
    norm_num
    exact Or.inl (by decide)
  · rw [h15]
    norm_num
    exact ⟨fun _ => by decide, fun _ he => bullet_msg_ne_toomany _ he.symm, fun _ => by decide⟩

/-- Witness for C7 amended at a concrete one-heading document. -/
theorem C7_amended_witness :
    ¬("No main topics found. Expected at least 1" ∈
      (validate_notes_structure "### A\nx").2) :=
  (C7_amended_thm "### A\nx" (by decide)).2.1 (by decide)

/-! ## C8 -/

theorem pySplitWS_eq_nil_iff (l : List Char) :
    pySplitWS l = [] ↔ ∀ c ∈ l, isPySpace c = true := by
  induction l with
  | nil => simp [pySplitWS]
  | cons c rest ih =>
    by_cases hc : isPySpace c = true
    · rw [show pySplitWS (c :: rest) = pySplitWS rest from by rw [pySplitWS, if_pos hc]]
      simp [hc, ih]
    · have hne : ¬pySplitWS (c :: rest) = [] := by
        rw [pySplitWS, if_neg hc]
        rcases h2 : pySplitWS rest with _ | ⟨l', ls⟩
        · simp
        · rcases rest with _ | ⟨c2, rest'⟩
          · simp
          · dsimp only
            split <;> simp
      simp [hne, hc]

theorem stripWS_nil_all_space (l : List Char) (h : stripWS l = []) :
    ∀ c ∈ l, isPySpace c = true := by
  unfold stripWS at h
  rw [List.reverse_eq_nil_iff, List.dropWhile_eq_nil_iff] at h
  have hm : ∀ c ∈ l.dropWhile isPySpace, isPySpace c = true := by
    intro c hc
    exact h c (List.mem_reverse.mpr hc)
  intro c hc
  rcases (List.mem_append.mp (by
      rw [List.takeWhile_append_dropWhile (p := isPySpace)]
      exact hc)) with h1 | h2
  · exact List.mem_takeWhile_imp h1
  · exact hm c h2

/-- C8: the transcript quality gate at its boundaries: 9 words is too
short; 10 pairwise-distinct words pass; 50 words with one word occurring
48 times fail the repetition check. -/
theorem C8_thm (t : String) :
    ((pySplitWS t.data).length = 9 →
      validate_transcript t =
        (false, "Transcript is very short (9 words). Audio may be unclear.")) ∧
    ((pySplitWS t.data).length = 10 → (pySplitWS t.data).Nodup →
      validate_transcript t = (true, "")) ∧
    ((pySplitWS t.data).length = 50 → (∃ w, (pySplitWS t.data).count w = 48) →
      validate_transcript t =
        (false, "Transcript has excessive repetition. Audio quality may be poor.")) := by
  have hcond : ∀ n, (pySplitWS t.data).length = n → 0 < n →
      (decide (t = "") || decide ((pyStrip t).data.length = 0)) = false := by
    intro n hn hpos
    have hw : ¬pySplitWS t.data = [] := by
      intro he
      rw [he] at hn
      simp at hn
      omega
    have hstrip : ¬stripWS t.data = [] := by
      intro he
      exact hw (pySplitWS_eq_nil_iff t.data |>.mpr (stripWS_nil_all_space _ he))
    have ht : ¬t = "" := by
      intro he
      apply hstrip
      rw [he]
      rfl
    have hlen : ¬(pyStrip t).data.length = 0 := by
      intro he
      exact hstrip (List.length_eq_zero.mp he)
    simp only [Bool.or_eq_false_iff, decide_eq_false_iff_not]
    exact ⟨ht, hlen⟩
  refine ⟨fun h9 => ?_, fun h10 hnd => ?_, fun h50 hrep => ?_⟩
  · unfold validate_transcript
    rw [if_neg (by rw [hcond 9 h9 (by omega)]; simp)]
    dsimp only
    rw [if_pos (by rw [h9]; omega)]
    rw [h9]
    decide
  · unfold validate_transcript
    rw [if_neg (by rw [hcond 10 h10 (by omega)]; simp)]
    dsimp only
    rw [if_neg (by rw [h10]; omega)]
    rw [if_neg (by
      rw [hnd.dedup, h10]
      norm_num)]
  · obtain ⟨w, hw⟩ := hrep
    unfold validate_transcript
    rw [if_neg (by rw [hcond 50 h50 (by omega)]; simp)]
    dsimp only
    rw [if_neg (by rw [h50]; omega)]
    have hsplit := List.length_eq_countP_add_countP (p := (· == w)) (pySplitWS t.data)
    rw [h50, ← List.count_eq_countP, hw] at hsplit
    have hflen : ((pySplitWS t.data).filter (fun a => ¬(a == w))).length = 2 := by
      rw [← List.countP_eq_length_filter]
      omega
    have hdedup : (pySplitWS t.data).dedup.length ≤ 3 := by
      have hcard : (pySplitWS t.data).toFinset.card = (pySplitWS t.data).dedup.length :=
        List.card_toFinset _
      have hsub : (pySplitWS t.data).toFinset ⊆
          insert w ((pySplitWS t.data).filter (fun a => ¬(a == w))).toFinset := by
        intro x hx
        rw [List.mem_toFinset] at hx
        by_cases hxw : x = w
        · simp [hxw]
        · apply Finset.mem_insert_of_mem
          rw [List.mem_toFinset, List.mem_filter]
          exact ⟨hx, by simp [hxw]⟩
      calc (pySplitWS t.data).dedup.length
          = (pySplitWS t.data).toFinset.card := hcard.symm
        _ ≤ (insert w ((pySplitWS t.data).filter (fun a => ¬(a == w))).toFinset).card :=
            Finset.card_le_card hsub
        _ ≤ ((pySplitWS t.data).filter (fun a => ¬(a == w))).toFinset.card + 1 :=
            Finset.card_insert_le _ _
        _ ≤ ((pySplitWS t.data).filter (fun a => ¬(a == w))).length + 1 :=
            Nat.add_le_add_right (List.toFinset_card_le _) 1
        _ = 3 := by rw [hflen]
    rw [h50, if_pos (by
      have h3 : ((pySplitWS t.data).dedup.length : ℚ) ≤ 3 := by
        exact_mod_cast hdedup
      have h5 : ((50 : Nat) : ℚ) * (1 / 10) = 5 := by norm_num
      rw [h5]
      linarith)]

/-- Witness for C8 at three concrete transcripts. -/
theorem C8_witness :
    validate_transcript "a b c d e f g h i" =
      (false, "Transcript is very short (9 words). Audio may be unclear.") ∧
    validate_transcript "a b c d e f g h i j" = (true, "") ∧
    validate_transcript "w w w w w w w w w w w w w w w w w w w w w w w w w w w w w w w w w w w w w w w w w w w w w w w w x y" =
      (false, "Transcript has excessive repetition. Audio quality may be poor.") :=
  ⟨(C8_thm "a b c d e f g h i").1 (by decide),
   (C8_thm "a b c d e f g h i j").2.1 (by decide) (by decide),
   (C8_thm "w w w w w w w w w w w w w w w w w w w w w w w w w w w w w w w w w w w w w w w w w w w w w w w w x y").2.2 (by decide) ⟨"w".data, by decide⟩⟩

/-! ## C3 -/

theorem not_h3_of_h4 (r : List Char) :
    "### ".data.isPrefixOf ("#### ".data ++ r) = false := by
  simp [List.isPrefixOf]

theorem h4_prefix_self (r : List Char) :
    "#### ".data.isPrefixOf ("#### ".data ++ r) = true := by
  simp [List.isPrefixOf]

theorem h3_prefix_self (r : List Char) :
    "### ".data.isPrefixOf ("### ".data ++ r) = true := by
  simp [List.isPrefixOf]

theorem nhStep_contents (st : NHState) (line : List Char)
    (h1 : ∀ m ∈ st.mains, m.content = "")
    (h2 : ∀ m, st.currentMain = some m → m.content = "") :
    (∀ m ∈ (nhStep st line).mains, m.content = "") ∧
    (∀ m, (nhStep st line).currentMain = some m → m.content = "") := by
  rcases st with ⟨mains, cm, cs, cc⟩
  simp only at h2
  unfold nhStep
  by_cases hA : "### ".data.isPrefixOf (stripWS line) = true
  · rw [if_pos hA]
    rcases cs with _ | sub <;> rcases cm with _ | m <;> dsimp only
    · exact ⟨h1, by intro m hm; cases hm; rfl⟩
    · refine ⟨?_, by intro m' hm'; cases hm'; rfl⟩
      intro x hx
      rcases List.mem_append.mp hx with h | h
      · exact h1 x h
      · rw [List.mem_singleton.mp h]
        exact h2 m rfl
    · exact ⟨h1, by intro m hm; cases hm; rfl⟩
    · refine ⟨?_, by intro m' hm'; cases hm'; rfl⟩
      intro x hx
      rcases List.mem_append.mp hx with h | h
      · exact h1 x h
      · rw [List.mem_singleton.mp h]
        exact h2 m rfl
  · rw [if_neg hA]
    by_cases hB : "#### ".data.isPrefixOf (stripWS line) = true
    · rw [if_pos hB]
      rcases cs with _ | sub <;> rcases cm with _ | m <;> dsimp only
      · exact ⟨h1, h2⟩
      · exact ⟨h1, h2⟩
      · exact ⟨h1, h2⟩
      · refine ⟨h1, ?_⟩
        intro m' hm'
        cases hm'
        exact h2 m rfl
    · rw [if_neg hB]
      by_cases hC : (!(stripWS line).isEmpty) = true
      · rw [if_pos hC]
        exact ⟨h1, h2⟩
      · rw [if_neg hC]
        exact ⟨h1, h2⟩

theorem foldl_nhStep_contents (lines : List (List Char)) (st : NHState)
    (h1 : ∀ m ∈ st.mains, m.content = "")
    (h2 : ∀ m, st.currentMain = some m → m.content = "") :
    (∀ m ∈ (lines.foldl nhStep st).mains, m.content = "") ∧
    (∀ m, (lines.foldl nhStep st).currentMain = some m → m.content = "") := by
  induction lines generalizing st with
  | nil => exact ⟨h1, h2⟩
  | cons l ls ih =>
    have h := nhStep_contents st l h1 h2
    exact ih (nhStep st l) h.1 h.2

/-- C3 amended, part (a): every main topic in the parsed hierarchy has an
empty `content` field — body lines never reach it. -/
theorem parse_notes_content_empty (md : String) :
    ∀ mt ∈ parse_notes_hierarchy md, mt.content = "" := by
  have h := foldl_nhStep_contents (pyLines md) ⟨[], none, none, []⟩
    (by intro m hm; cases hm) (by intro m hm; cases hm)
  intro mt hmt
  unfold parse_notes_hierarchy nhFinish at hmt
  revert hmt
  generalize hst : (pyLines md).foldl nhStep ⟨[], none, none, []⟩ = st
  rw [hst] at h
  rcases st with ⟨mains, cm, cs, cc⟩
  rcases cs with _ | sub <;> rcases cm with _ | m <;> dsimp only <;> intro hmt
  · exact h.1 mt hmt
  · rcases List.mem_append.mp hmt with hx | hx
    · exact h.1 mt hx
    · rw [List.mem_singleton.mp hx]
      exact h.2 m rfl
  · exact h.1 mt hmt
  · rcases List.mem_append.mp hmt with hx | hx
    · exact h.1 mt hx
    · rw [List.mem_singleton.mp hx]
      exact h.2 m rfl

/-- C3 amended: body lines are appended to the accumulation buffer and
reach only subtopic bodies; every main topic's own `content` field stays
empty.  The buffer is reset at every depth-2 heading, and at a depth-1
heading only when a subtopic (under an open main topic) is open — with no
open subtopic a depth-1 heading leaves the buffer unchanged (the leftover
is discarded at the next subtopic opening, never emitted). -/
theorem C3_amended_thm :
    (∀ md : String, ∀ mt ∈ parse_notes_hierarchy md, mt.content = "") ∧
    (∀ (st : NHState) (line r : List Char), stripWS line = "#### ".data ++ r →
      (nhStep st line).currentContent = []) ∧
    (∀ (st : NHState) (line r : List Char), stripWS line = "### ".data ++ r →
      st.currentSub.isSome → st.currentMain.isSome →
      (nhStep st line).currentContent = []) ∧
    (∀ (st : NHState) (line r : List Char), stripWS line = "### ".data ++ r →
      st.currentSub = none → (nhStep st line).currentContent = st.currentContent) ∧
    (∀ (st : NHState) (line : List Char),
      "### ".data.isPrefixOf (stripWS line) = false →
      "#### ".data.isPrefixOf (stripWS line) = false →
      ¬stripWS line = [] →
      (nhStep st line).currentContent = st.currentContent ++ [line] ∧
      (nhStep st line).currentMain = st.currentMain ∧
      (nhStep st line).currentSub = st.currentSub) := by
  refine ⟨parse_notes_content_empty, ?_, ?_, ?_, ?_⟩
  · intro st line r h
    rcases st with ⟨mains, cm, cs, cc⟩
    unfold nhStep
    rw [h, if_neg (by rw [not_h3_of_h4 r]; simp), if_pos (h4_prefix_self r)]
  · intro st line r h hcs hcm
    rcases st with ⟨mains, cm, cs, cc⟩
    rcases Option.isSome_iff_exists.mp hcs with ⟨sub, hsub⟩
    rcases Option.isSome_iff_exists.mp hcm with ⟨m, hm⟩
    cases hsub
    cases hm
    unfold nhStep
    rw [h, if_pos (h3_prefix_self r)]
  · intro st line r h hcs
    rcases st with ⟨mains, cm, cs, cc⟩
    cases hcs
    unfold nhStep
    rw [h, if_pos (h3_prefix_self r)]
    rcases cm with _ | m <;> rfl
  · intro st line hA hB hne
    rcases st with ⟨mains, cm, cs, cc⟩
    unfold nhStep
    rw [if_neg (by rw [hA]; simp), if_neg (by rw [hB]; simp),
      if_pos (by rw [Bool.not_eq_true']; simpa [List.isEmpty_iff] using hne)]
    exact ⟨rfl, rfl, rfl⟩

/-- Witness for C3 amended: a depth-2 heading resets a nonempty buffer; a
non-heading non-blank line is appended to the buffer. -/
theorem C3_amended_witness :
    (nhStep ⟨[], none, none, ["x".data]⟩ "#### S".data).currentContent = [] ∧
    (nhStep ⟨[], none, none, []⟩ "hello".data).currentContent = ["hello".data] :=
  ⟨C3_amended_thm.2.1 ⟨[], none, none, ["x".data]⟩ "#### S".data "S".data (by decide),
   (C3_amended_thm.2.2.2.2 ⟨[], none, none, []⟩ "hello".data (by decide) (by decide)
      (by decide)).1⟩

/-! ## C9 -/

/-- The eight normalized category names. -/
def goodCategories : List String :=
  ["Assignment", "Reading (Required)", "Reading (Suggested)", "Exam", "Deadline",
   "Review Topic", "Lab/Practical", "Other"]

/-- The three normalized priorities. -/
def goodPriorities : List String :=
  ["High", "Medium", "Low"]

theorem normalize_category_mem (s : String) : normalize_category s ∈ goodCategories := by
  unfold normalize_category goodCategories
  dsimp only
  split_ifs <;> simp

theorem normalize_priority_mem (s : String) : normalize_priority s ∈ goodPriorities := by
  unfold normalize_priority goodPriorities
  dsimp only
  split_ifs <;> simp

/-- Well-formedness of one emitted item. -/
def goodItem (it : ActionItem) : Prop :=
  it.category ∈ goodCategories ∧ it.priority ∈ goodPriorities

theorem paFlush_good (st : PAState)
    (h1 : ∀ it ∈ st.items, goodItem it)
    (h2 : ∀ it, st.currentItem = some it → it.priority ∈ goodPriorities) :
    ∀ it ∈ paFlush st, goodItem it := by
  rcases st with ⟨items, cc, ci⟩
  unfold paFlush
  rcases ci with _ | it0 <;> rcases cc with _ | cat <;> dsimp only
  · exact h1
  · exact h1
  · exact h1
  · split
    · intro it hit
      rcases List.mem_append.mp hit with h | h
      · exact h1 it h
      · rw [List.mem_singleton.mp h]
        exact ⟨normalize_category_mem cat, h2 it0 rfl⟩
    · exact h1

theorem paStep_good (st : PAState) (line : List Char)
    (h1 : ∀ it ∈ st.items, goodItem it)
    (h2 : ∀ it, st.currentItem = some it → it.priority ∈ goodPriorities) :
    (∀ it ∈ (paStep st line).items, goodItem it) ∧
    (∀ it, (paStep st line).currentItem = some it → it.priority ∈ goodPriorities) := by
  rcases st with ⟨items, cc, ci⟩
  simp only at h1 h2
  unfold paStep
  by_cases hA : "###".data.isPrefixOf (stripWS line) = true
  · rw [if_pos hA]
    exact ⟨h1, h2⟩
  · rw [if_neg hA]
    by_cases hB : "- **Description**:".data.isPrefixOf (stripWS line) = true
    · rw [if_pos hB]
      refine ⟨paFlush_good _ h1 h2, ?_⟩
      intro it hit
      cases hit
      simp [goodPriorities]
    · rw [if_neg hB]
      rcases ci with _ | it0
      · rw [if_neg (by simp), if_neg (by simp), if_neg (by simp)]
        exact ⟨h1, h2⟩
      · by_cases hC : "- **Due Date**:".data.isPrefixOf (stripWS line) = true
        · rw [if_pos (by simp [hC])]
          refine ⟨h1, ?_⟩
          intro it hit
          cases hit
          exact h2 it0 rfl
        · rw [if_neg (by simp [hC])]
          by_cases hD : "- **Priority**:".data.isPrefixOf (stripWS line) = true
          · rw [if_pos (by simp [hD])]
            refine ⟨h1, ?_⟩
            intro it hit
            cases hit
            exact normalize_priority_mem _
          · rw [if_neg (by simp [hD])]
            by_cases hE : "- **Context**:".data.isPrefixOf (stripWS line) = true
            · rw [if_pos (by simp [hE])]
              refine ⟨h1, ?_⟩
              intro it hit
              cases hit
              exact h2 it0 rfl
            · rw [if_neg (by simp [hE])]
              exact ⟨h1, h2⟩

theorem foldl_paStep_good (lines : List (List Char)) (st : PAState)
    (h1 : ∀ it ∈ st.items, goodItem it)
    (h2 : ∀ it, st.currentItem = some it → it.priority ∈ goodPriorities) :
    (∀ it ∈ (lines.foldl paStep st).items, goodItem it) ∧
    (∀ it, (lines.foldl paStep st).currentItem = some it → it.priority ∈ goodPriorities) := by
  induction lines generalizing st with
  | nil => exact ⟨h1, h2⟩
  | cons l ls ih =>
    have h := paStep_good st l h1 h2
    exact ih (paStep st l) h.1 h.2

theorem parse_action_items_good (raw : String) :
    ∀ it ∈ parse_action_items raw, goodItem it := by
  have h := foldl_paStep_good (pyLines raw) ⟨[], none, none⟩
    (by intro it hit; cases hit) (by intro it hit; cases hit)
  exact paFlush_good _ h.1 h.2

theorem paFlush_nilcat (st : PAState)
    (h : st.currentCategory = none ∨ st.currentCategory = some "") :
    paFlush st = st.items := by
  rcases st with ⟨items, cc, ci⟩
  simp only at h
  unfold paFlush
  rcases ci with _ | it0 <;> rcases h with h | h <;> subst h <;> rfl

theorem paStep_nilinv (st : PAState) (line : List Char)
    (hline : "###".data.isPrefixOf (stripWS line) = true →
      stripWS ((stripWS line).drop 3) = [])
    (h1 : st.items = [])
    (h2 : st.currentCategory = none ∨ st.currentCategory = some "") :
    (paStep st line).items = [] ∧
    ((paStep st line).currentCategory = none ∨ (paStep st line).currentCategory = some "") := by
  rcases st with ⟨items, cc, ci⟩
  simp only at h1 h2
  unfold paStep
  by_cases hA : "###".data.isPrefixOf (stripWS line) = true
  · rw [if_pos hA]
    refine ⟨h1, Or.inr ?_⟩
    dsimp only
    rw [hline hA]
  · rw [if_neg hA]
    by_cases hB : "- **Description**:".data.isPrefixOf (stripWS line) = true
    · rw [if_pos hB]
      refine ⟨?_, h2⟩
      dsimp only
      rw [paFlush_nilcat _ (by simpa using h2)]
      exact h1
    · rw [if_neg hB]
      rcases ci with _ | it0
      · rw [if_neg (by simp), if_neg (by simp), if_neg (by simp)]
        exact ⟨h1, h2⟩
      · by_cases hC : "- **Due Date**:".data.isPrefixOf (stripWS line) = true
        · rw [if_pos (by simp [hC])]
          exact ⟨h1, h2⟩
        · rw [if_neg (by simp [hC])]
          by_cases hD : "- **Priority**:".data.isPrefixOf (stripWS line) = true
          · rw [if_pos (by simp [hD])]
            exact ⟨h1, h2⟩
          · rw [if_neg (by simp [hD])]
            by_cases hE : "- **Context**:".data.isPrefixOf (stripWS line) = true
            · rw [if_pos (by simp [hE])]
              exact ⟨h1, h2⟩
            · rw [if_neg (by simp [hE])]
              exact ⟨h1, h2⟩

theorem parse_action_items_no_heading (raw : String)
    (hl : ∀ l ∈ pyLines raw, "###".data.isPrefixOf (stripWS l) = true →
      stripWS ((stripWS l).drop 3) = []) :
    parse_action_items raw = [] := by
  unfold parse_action_items
  have hfold : ∀ (lines : List (List Char)) (st : PAState),
      (∀ l ∈ lines, "###".data.isPrefixOf (stripWS l) = true →
        stripWS ((stripWS l).drop 3) = []) →
      st.items = [] → (st.currentCategory = none ∨ st.currentCategory = some "") →
      (lines.foldl paStep st).items = [] ∧
      ((lines.foldl paStep st).currentCategory = none ∨
        (lines.foldl paStep st).currentCategory = some "") := by
    intro lines
    induction lines with
    | nil => intro st _ h1 h2; exact ⟨h1, h2⟩
    | cons l ls ih =>
      intro st hls h1 h2
      have h := paStep_nilinv st l (hls l (by simp)) h1 h2
      exact ih (paStep st l) (fun x hx hp => hls x (by simp [hx]) hp) h.1 h.2
  have h := hfold (pyLines raw) ⟨[], none, none⟩ hl rfl (Or.inl rfl)
  rw [paFlush_nilcat _ h.2]
  exact h.1

theorem paFlush_cases (st : PAState) :
    paFlush st = st.items ∨
    ∃ it cat, st.currentItem = some it ∧ st.currentCategory = some cat ∧ ¬cat = "" ∧
      paFlush st = st.items ++ [{ it with category := normalize_category cat }] := by
  rcases st with ⟨items, cc, ci⟩
  unfold paFlush
  rcases ci with _ | it0 <;> rcases cc with _ | cat <;> dsimp only
  · exact Or.inl rfl
  · exact Or.inl rfl
  · exact Or.inl rfl
  · by_cases hcat : cat = ""
    · rw [if_neg (not_not_intro hcat)]
      exact Or.inl rfl
    · rw [if_pos hcat]
      exact Or.inr ⟨it0, cat, rfl, rfl, hcat, rfl⟩

theorem paStep_items_cases (st : PAState) (line : List Char) :
    (paStep st line).items = st.items ∨
    ∃ it cat, st.currentItem = some it ∧ st.currentCategory = some cat ∧ ¬cat = "" ∧
      (paStep st line).items = st.items ++ [{ it with category := normalize_category cat }] := by
  rcases st with ⟨items, cc, ci⟩
  unfold paStep
  by_cases hA : "###".data.isPrefixOf (stripWS line) = true
  · rw [if_pos hA]
    exact Or.inl rfl
  · rw [if_neg hA]
    by_cases hB : "- **Description**:".data.isPrefixOf (stripWS line) = true
    · rw [if_pos hB]
      rcases paFlush_cases ⟨items, cc, ci⟩ with h | ⟨it, cat, h1, h2, h3, h4⟩
      · exact Or.inl h
      · exact Or.inr ⟨it, cat, h1, h2, h3, h4⟩
    · rw [if_neg hB]
      rcases ci with _ | it0
      · rw [if_neg (by simp), if_neg (by simp), if_neg (by simp)]
        exact Or.inl rfl
      · by_cases hC : "- **Due Date**:".data.isPrefixOf (stripWS line) = true
        · rw [if_pos (by simp [hC])]
          exact Or.inl rfl
        · rw [if_neg (by simp [hC])]
          by_cases hD : "- **Priority**:".data.isPrefixOf (stripWS line) = true
          · rw [if_pos (by simp [hD])]
            exact Or.inl rfl
          · rw [if_neg (by simp [hD])]
            by_cases hE : "- **Context**:".data.isPrefixOf (stripWS line) = true
            · rw [if_pos (by simp [hE])]
              exact Or.inl rfl
            · rw [if_neg (by simp [hE])]
              exact Or.inl rfl

theorem paStep_items_nilcat (st : PAState) (line : List Char)
    (h : st.currentCategory = none ∨ st.currentCategory = some "") :
    (paStep st line).items = st.items := by
  rcases paStep_items_cases st line with hc | ⟨it, cat, h1, h2, h3, h4⟩
  · exact hc
  · rcases h with h | h
    · rw [h] at h2
      exact Option.noConfusion h2
    · rw [h] at h2
      injection h2 with he
      exact absurd he.symm h3

/-- An item as stamped by a flush: some pre-flush record whose category
was overwritten with the normalization of a non-empty heading value. -/
def flushedItem (it : ActionItem) : Prop :=
  ∃ (it0 : ActionItem) (cat : String),
    ¬cat = "" ∧ it = { it0 with category := normalize_category cat }

theorem foldl_paStep_flushed (lines : List (List Char)) (st : PAState)
    (h : ∀ it ∈ st.items, flushedItem it) :
    ∀ it ∈ (lines.foldl paStep st).items, flushedItem it := by
  induction lines generalizing st with
  | nil => exact h
  | cons l ls ih =>
    refine ih (paStep st l) ?_
    intro it hit
    rcases paStep_items_cases st l with hc | ⟨it1, cat, h1, h2, h3, h4⟩
    · rw [hc] at hit
      exact h it hit
    · rw [h4] at hit
      rcases List.mem_append.mp hit with hm | hm
      · exact h it hm
      · rw [List.mem_singleton.mp hm]
        exact ⟨it1, cat, h3, rfl⟩

theorem parse_action_items_flushed (raw : String) :
    ∀ it ∈ parse_action_items raw, flushedItem it := by
  intro it hit
  unfold parse_action_items at hit
  rcases paFlush_cases ((pyLines raw).foldl paStep ⟨[], none, none⟩) with
    hc | ⟨it1, cat, h1, h2, h3, h4⟩
  · rw [hc] at hit
    exact foldl_paStep_flushed _ _ (by intro x hx; cases hx) it hit
  · rw [h4] at hit
    rcases List.mem_append.mp hit with hm | hm
    · exact foldl_paStep_flushed _ _ (by intro x hx; cases hx) it hm
    · rw [List.mem_singleton.mp hm]
      exact ⟨it1, cat, h3, rfl⟩

/-- C9: every item emitted by `parse_action_items` carries one of the
eight normalized category names and one of the three normalized
priorities; in every document, every emitted item is a pre-flush record
stamped with the normalization of a non-empty category heading; emission
happens only at a flush (a new Description line, or the end of input)
whose state holds an open item and a non-empty current category, and a
flush at which the current category is absent or empty emits nothing,
whatever the rest of the document looks like; a document whose category
headings are all empty therefore yields no items at all. -/
theorem C9_thm :
    (∀ (raw : String), ∀ it ∈ parse_action_items raw,
      it.category ∈ goodCategories ∧ it.priority ∈ goodPriorities) ∧
    (∀ (raw : String), ∀ it ∈ parse_action_items raw,
      ∃ (it0 : ActionItem) (cat : String),
        ¬cat = "" ∧ it = { it0 with category := normalize_category cat }) ∧
    (∀ (st : PAState) (line : List Char),
      (paStep st line).items = st.items ∨
      ∃ it cat, st.currentItem = some it ∧ st.currentCategory = some cat ∧ ¬cat = "" ∧
        (paStep st line).items = st.items ++ [{ it with category := normalize_category cat }]) ∧
    (∀ st : PAState,
      paFlush st = st.items ∨
      ∃ it cat, st.currentItem = some it ∧ st.currentCategory = some cat ∧ ¬cat = "" ∧
        paFlush st = st.items ++ [{ it with category := normalize_category cat }]) ∧
    (∀ (st : PAState) (line : List Char),
      st.currentCategory = none ∨ st.currentCategory = some "" →
      (paStep st line).items = st.items) ∧
    (∀ st : PAState,
      st.currentCategory = none ∨ st.currentCategory = some "" →
      paFlush st = st.items) ∧
    (∀ raw : String,
      (∀ l ∈ pyLines raw, "###".data.isPrefixOf (stripWS l) = true →
        stripWS ((stripWS l).drop 3) = []) →
      parse_action_items raw = []) :=
  ⟨fun raw it hit => parse_action_items_good raw it hit,
   fun raw it hit => parse_action_items_flushed raw it hit,
   paStep_items_cases,
   paFlush_cases,
   paStep_items_nilcat,
   paFlush_nilcat,
   fun raw hl => parse_action_items_no_heading raw hl⟩

/-- Witness for C9 at concrete inputs: the items parsed from `c1Raw` are
well-formed and stamped from a non-empty heading; a flush whose current
category is the empty string emits nothing even with an open item; and
raw output with only an empty heading yields no items. -/
theorem C9_witness :
    (c1Item1.category ∈ goodCategories ∧ c1Item1.priority ∈ goodPriorities) ∧
    (∃ (it0 : ActionItem) (cat : String),
      ¬cat = "" ∧ c1Item1 = { it0 with category := normalize_category cat }) ∧
    (paStep ⟨[], some "", some c1Item1⟩ "- **Description**: next".data).items = [] ∧
    paFlush ⟨[], some "", some c1Item1⟩ = [] ∧
    parse_action_items "###\n- **Description**: orphan\n" = [] :=
  ⟨C9_thm.1 c1Raw c1Item1 (by decide),
   C9_thm.2.1 c1Raw c1Item1 (by decide),
   C9_thm.2.2.2.2.1 ⟨[], some "", some c1Item1⟩ "- **Description**: next".data (Or.inr rfl),
   C9_thm.2.2.2.2.2.1 ⟨[], some "", some c1Item1⟩ (Or.inr rfl),
   C9_thm.2.2.2.2.2.2 "###\n- **Description**: orphan\n" (by decide)⟩

/-! ## C5 -/

/-- C5: when the first response fails structure validation, exactly one
retry is made, with the format-reinforcing instruction appended to the
prompt and the temperature multiplied by 0.8; when the retry's response
also fails validation, the function returns that response (not null)
together with the warning string listing the violated rules and the
metadata — exactly two calls are ever made. -/
theorem C5_thm (transcript lecture_type : String) (temp : Option ℚ) (mt : Option Nat)
    (llm : Nat → String × Option String) (p : String)
    (hp : get_notes_prompt transcript lecture_type = .ok p)
    (h0 : (llm 0).2 = none) (h1 : (llm 1).2 = none)
    (hv0 : (validate_notes_structure (llm 0).1).1 = false)
    (hv1 : (validate_notes_structure (llm 1).1).1 = false) :
    generate_structured_notes transcript lecture_type temp mt llm =
      .ok ⟨some (llm 1).1,
           some ("Warning: Notes structure may be incomplete. Issues: " ++
             String.intercalate ", " (validate_notes_structure (llm 1).1).2),
           some (get_notes_metadata (llm 1).1),
           [⟨p, temp.getD notesRecommendedTemperature, mt.getD notesRecommendedMaxTokens⟩,
            ⟨p ++ "\n\nCRITICAL: You MUST use the exact markdown format specified above. Start with ### for main topics and #### for subtopics.",
             temp.getD notesRecommendedTemperature * (4/5),
             mt.getD notesRecommendedMaxTokens⟩]⟩ := by
  unfold generate_structured_notes
  rw [hp]
  dsimp only
  rw [h0]
  dsimp only
  rw [hv0]
  simp only [Bool.not_false, if_true]
  rw [h1]
  dsimp only
  rw [hv1]
  simp only [Bool.not_false, if_true]

/-- Witness for C5: transcript "hi", lecture type "general", both
responses the unstructured string "x". -/
theorem C5_witness :
    generate_structured_notes "hi" "general" none none (fun _ => ("x", none)) =
      .ok ⟨some "x",
           some ("Warning: Notes structure may be incomplete. Issues: " ++
             String.intercalate ", " (validate_notes_structure "x").2),
           some (get_notes_metadata "x"),
           [⟨notesPromptOf "hi", (none : Option ℚ).getD notesRecommendedTemperature,
             (none : Option Nat).getD notesRecommendedMaxTokens⟩,
            ⟨notesPromptOf "hi" ++ "\n\nCRITICAL: You MUST use the exact markdown format specified above. Start with ### for main topics and #### for subtopics.",
             (none : Option ℚ).getD notesRecommendedTemperature * (4/5),
             (none : Option Nat).getD notesRecommendedMaxTokens⟩]⟩ :=
  C5_thm "hi" "general" none none (fun _ => ("x", none)) (notesPromptOf "hi")
    (get_notes_prompt_general "hi") rfl rfl (by decide) (by decide)

/-! ## C6 -/

theorem isSubstr_of_longer_phrase (l : List Char) :
    isSubstrL "no action items identified".data l = true →
    isSubstrL "no action items".data l = true := by
  intro h
  rw [isSubstrL_true_iff] at h ⊢
  exact List.IsInfix.trans
    ((by decide : "no action items".data <+: "no action items identified".data).isInfix) h

/-- C6: a response containing the phrase "no action items identified"
(case-insensitively) short-circuits to the empty list with no error and
the raw output, with no retry call; the retry — one extra call with the
reinforced prompt and temperature times 0.8 — happens exactly when
parsing yields zero items and the phrase "no action items" is absent. -/
theorem C6_thm (transcript : String) (ld : Option String) (temp : Option ℚ)
    (mt : Option Nat) (llm : Nat → String × Option String) (p : String)
    (hp : get_actions_prompt transcript ld = .ok p)
    (h0 : (llm 0).2 = none) :
    (isSubstr ⟨lowerL (llm 0).1.data⟩ "no action items identified" = true →
      extract_action_items transcript ld temp mt llm =
        .ok ⟨some [], none, (llm 0).1,
             [⟨p, temp.getD actionsRecommendedTemperature,
               mt.getD actionsRecommendedMaxTokens⟩]⟩) ∧
    (isSubstr ⟨lowerL (llm 0).1.data⟩ "no action items" = false →
      parse_action_items (llm 0).1 = [] → (llm 1).2 = none →
      extract_action_items transcript ld temp mt llm =
        .ok ⟨some (parse_action_items (llm 1).1), none, (llm 1).1,
             [⟨p, temp.getD actionsRecommendedTemperature,
               mt.getD actionsRecommendedMaxTokens⟩,
              ⟨p ++ "\n\nCRITICAL: You MUST use the exact format specified above with markdown headers (###) and bullet points. Include ALL action items mentioned.",
               temp.getD actionsRecommendedTemperature * (4/5),
               mt.getD actionsRecommendedMaxTokens⟩]⟩) ∧
    (isSubstr ⟨lowerL (llm 0).1.data⟩ "no action items identified" = false →
      (¬parse_action_items (llm 0).1 = [] ∨
        isSubstr ⟨lowerL (llm 0).1.data⟩ "no action items" = true) →
      extract_action_items transcript ld temp mt llm =
        .ok ⟨some (parse_action_items (llm 0).1), none, (llm 0).1,
             [⟨p, temp.getD actionsRecommendedTemperature,
               mt.getD actionsRecommendedMaxTokens⟩]⟩) := by
  refine ⟨fun hident => ?_, fun habs hpar h1 => ?_, fun hident hno => ?_⟩
  · unfold extract_action_items
    rw [hp]
    dsimp only
    rw [h0]
    dsimp only
    rw [if_pos hident]
  · have hident : isSubstr ⟨lowerL (llm 0).1.data⟩ "no action items identified" = false := by
      by_contra hc
      rw [Bool.not_eq_false] at hc
      have hmono : isSubstr ⟨lowerL (llm 0).1.data⟩ "no action items" = true :=
        isSubstr_of_longer_phrase _ hc
      rw [habs] at hmono
      exact absurd hmono (by simp)
    unfold extract_action_items
    rw [hp]
    dsimp only
    rw [h0]
    dsimp only
    rw [if_neg (by rw [hident]; simp)]
    rw [if_pos (by rw [hpar, habs]; rfl)]
    rw [h1]
  · unfold extract_action_items
    rw [hp]
    dsimp only
    rw [h0]
    dsimp only
    rw [if_neg (by rw [hident]; simp)]
    rw [if_neg (by
      rcases hno with hno | hno
      · simp [List.length_eq_zero, hno]
      · rw [hno]
        simp)]

/-- Witness for C6: a response consisting of the no-action-items sentence
yields the empty list without a retry. -/
theorem C6_witness :
    extract_action_items "hi" none none none
        (fun _ => ("No action items identified in this lecture.", none)) =
      .ok ⟨some [], none, "No action items identified in this lecture.",
           [⟨actionsPromptOf "hi", (none : Option ℚ).getD actionsRecommendedTemperature,
             (none : Option Nat).getD actionsRecommendedMaxTokens⟩]⟩ :=
  (C6_thm "hi" none none none
      (fun _ => ("No action items identified in this lecture.", none))
      (actionsPromptOf "hi") (get_actions_prompt_none "hi") rfl).1 (by decide)
